import Mathlib

/-!
Verification development for an intraday signal-generation and trade-admission
pipeline.  Python modules are shallowly embedded over `ℚ`:

* `volume_filter`    : `analyze_volume`, `volume_spike_confirmed`
* `vwap_filter`      : `VWAPCalculator` (`update`, `get_vwap`, `get_context`)
* `sr_levels`        : pivot extraction, clustering, `compute_sr_levels`,
                       `get_nearest_sr`, `sr_location_score`
* `price_action`     : `rejection_info`, `detect_pullback_in_trend`,
                       `price_action_context`
* `pullback_detector`: `detect_pullback_signal`
* `breakout_detector`: `detect_compression`, `breakout_signal`
* `decision_engine`  : `final_trade_decision`
* `market_streamer`  : the `on_message` batch handler with its daily ledger,
                       open-position set and admission loop

`volatility_filter` and `liquidity_filter` are not part of the available
sources; they are modelled from the specification (see their doc comments).
Machine floats are modelled as exact rationals; Python's `round` (banker's
rounding at a decimal position) is modelled exactly by `pyRound`.
-/

/-! ### Numeric helpers -/

/-- Floor of a rational as an integer, via flooring integer division
(the denominator of `ℚ` is positive). -/
def ratFloor (q : ℚ) : ℤ := Int.fdiv q.num q.den

/-- Round-half-to-even to the nearest integer, as Python's `round` does. -/
def roundHalfEven (x : ℚ) : ℤ :=
  let n := ratFloor x
  let r := x - n
  if r < 1/2 then n
  else if 1/2 < r then n + 1
  else if 2 ∣ n then n else n + 1

/-- Python's `round(x, n)`: banker's rounding at `n` decimal places. -/
def pyRound (n : ℕ) (x : ℚ) : ℚ := (roundHalfEven (x * (10:ℚ)^n)) / (10:ℚ)^n

/-- Python `xs[-k]` (for `1 ≤ k ≤ len xs`, the only shape the embedded calls
use); out-of-range indices give `0`. -/
def nthBack (xs : List ℚ) (k : ℕ) : ℚ := xs.reverse.getD (k - 1) 0

/-- Python `xs[-n:]` for `n ≥ 1`: the last `n` elements (the whole list when
`n ≥ len xs`). -/
def lastN (xs : List ℚ) (n : ℕ) : List ℚ := (xs.reverse.take n).reverse

/-- Python `max(xs)` on a nonempty list (`0` on `[]`, where Python raises). -/
def pyMax : List ℚ → ℚ
  | [] => 0
  | h :: t => t.foldl max h

/-- Python `min(xs)` on a nonempty list (`0` on `[]`, where Python raises). -/
def pyMin : List ℚ → ℚ
  | [] => 0
  | h :: t => t.foldl min h

/-- `all(xs[i] > xs[i-1])` over consecutive pairs: strictly increasing. -/
def strictRising : List ℚ → Bool
  | a :: b :: t => decide (a < b) && strictRising (b :: t)
  | _ => true

/-- `all(xs[i] < xs[i-1])` over consecutive pairs: strictly decreasing. -/
def strictFalling : List ℚ → Bool
  | a :: b :: t => decide (b < a) && strictFalling (b :: t)
  | _ => true

/-! ### `strategy/volume_filter.py` -/

/-- Result record of `analyze_volume` (`VolumeContext` dataclass). -/
structure VolumeContext where
  score : ℚ
  strength : String
  trend : String
  comment : String
  deriving DecidableEq

/-- `analyze_volume(volume_history, close_prices, lookback, rising_bars)`:
relative volume strength vs the trailing `lookback` average, a rising/falling
trend bonus over the last `rising_bars` bars, and a price–volume
confirmation / absorption adjustment; final score clamped to `[-2, 2]` and
rounded to 2 decimals. -/
def analyze_volume (volume_history : List ℚ) (close_prices : Option (List ℚ) := none)
    (lookback : ℕ := 20) (rising_bars : ℕ := 4) : VolumeContext :=
  if volume_history.isEmpty ∨ volume_history.length < lookback + rising_bars then
    { score := (0/10), strength := "NONE", trend := "FLAT", comment := "Insufficient volume data" }
  else
    let recent := lastN volume_history lookback
    let avg_volume : ℚ := if 0 < lookback then recent.sum / (lookback : ℚ) else 0
    let current_volume := nthBack volume_history 1
    let rel : ℚ := if 0 < avg_volume then current_volume / avg_volume else (10/10)
    let strength : String :=
      if ((20/10):ℚ) ≤ rel then "STRONG"
      else if ((16/10):ℚ) ≤ rel then "MODERATE"
      else if ((11/10):ℚ) ≤ rel then "WEAK"
      else "NONE"
    let score : ℚ :=
      if ((20/10):ℚ) ≤ rel then (20/10)
      else if ((16/10):ℚ) ≤ rel then (9/10)
      else if ((11/10):ℚ) ≤ rel then (1/10)
      else -(8/10)
    let last_n := lastN volume_history rising_bars
    let trend : String :=
      if strictRising last_n then "RISING"
      else if strictFalling last_n then "FALLING"
      else "FLAT"
    let score : ℚ :=
      if strictRising last_n then score + (6/10)
      else if strictFalling last_n then score - (6/10)
      else score - (2/10)
    let scoreComment : ℚ × String :=
      match close_prices with
      | some cs =>
        if ¬cs.isEmpty ∧ rising_bars ≤ cs.length then
          let price_move := nthBack cs 1 - nthBack cs rising_bars
          let threshold := (25/10000) * nthBack cs 1
          if |price_move| < threshold then
            if strength = "STRONG" ∨ strength = "MODERATE" then
              (score - (10/10), "absorption_detected")
            else (score, "low conviction")
          else
            if strength = "STRONG" then (score + (5/10), "volume_confirms_move")
            else (score, "volume_confirms_move")
        else (score, "volume_only")
      | none => (score, "volume_only")
    let final_score := max (min scoreComment.1 (20/10)) (-(20/10))
    { score := pyRound 2 final_score, strength := strength, trend := trend,
      comment := scoreComment.2 }

/-- `volume_spike_confirmed`: the "strict legacy boolean" used by the breakout
detector.  Note the body never reads `threshold_multiplier`. -/
def volume_spike_confirmed (volume_history : List ℚ) (threshold_multiplier : ℚ := (16/10))
    (lookback : ℕ := 20) (rising_bars : ℕ := 4) : Bool :=
  let ctx := analyze_volume volume_history none lookback rising_bars
  decide (((12/10):ℚ) ≤ ctx.score)

/-- Claim C10: `volume_spike_confirmed` returns the same boolean for every
value of `threshold_multiplier` — it reduces to `analyze_volume`'s score being
`≥ 1.2` — so the `vol_threshold = 1.3` the breakout detector passes has no
effect on the outcome. -/
theorem volume_spike_confirmed_ignores_threshold
    (volume_history : List ℚ) (t₁ t₂ : ℚ) (lookback rising_bars : ℕ) :
    volume_spike_confirmed volume_history t₁ lookback rising_bars
      = volume_spike_confirmed volume_history t₂ lookback rising_bars
    ∧ volume_spike_confirmed volume_history t₁ lookback rising_bars
      = decide (((12/10):ℚ) ≤ (analyze_volume volume_history none lookback rising_bars).score) :=
  ⟨rfl, rfl⟩

/-! ### `strategy/vwap_filter.py` -/

/-- `VWAPContext` dataclass. -/
structure VWAPContext where
  vwap : Option ℚ
  distance_pct : ℚ
  slope : ℚ
  acceptance : String
  pressure : String
  score : ℚ
  comment : String
  deriving DecidableEq

/-- Mutable state of a `VWAPCalculator` instance. -/
structure VWAPState where
  window : Option ℕ
  slope_window : ℕ
  price_volume_sum : ℚ
  volume_sum : ℚ
  vwap_history : List ℚ
  price_volume_deque : List ℚ
  volume_deque : List ℚ
  deriving DecidableEq

/-- Bounded-deque append: keep the most recent `maxlen` elements. -/
def dequeAppend (maxlen : ℕ) (xs : List ℚ) (x : ℚ) : List ℚ :=
  let ys := xs ++ [x]
  ys.drop (ys.length - maxlen)

/-- `VWAPCalculator.__init__(window, slope_window)` followed by `reset()`. -/
def VWAPState.init (window : Option ℕ := none) (slope_window : ℕ := 6) : VWAPState :=
  { window := window, slope_window := slope_window,
    price_volume_sum := 0, volume_sum := 0,
    vwap_history := [], price_volume_deque := [], volume_deque := [] }

/-- `VWAPCalculator.update(price, volume)`: ignores a missing price, a missing
volume, or non-positive volume; otherwise accumulates (cumulative or rolling
window) and appends the new VWAP to the slope history. -/
def VWAPState.update (s : VWAPState) (price volume : Option ℚ) :
    Option ℚ × VWAPState :=
  match price, volume with
  | some p, some v =>
    if v ≤ 0 then (none, s)
    else
      let s' :=
        match s.window with
        | some w =>
          let pvd := dequeAppend w s.price_volume_deque (p * v)
          let vd := dequeAppend w s.volume_deque v
          { s with price_volume_deque := pvd, volume_deque := vd,
                   price_volume_sum := pvd.sum, volume_sum := vd.sum }
        | none =>
          { s with price_volume_sum := s.price_volume_sum + p * v,
                   volume_sum := s.volume_sum + v }
      if s'.volume_sum ≤ 0 then (none, s')
      else
        let vwap := s'.price_volume_sum / s'.volume_sum
        (some vwap,
         { s' with vwap_history := dequeAppend s'.slope_window s'.vwap_history vwap })
  | _, _ => (none, s)

/-- `VWAPCalculator.get_vwap()`. -/
def VWAPState.get_vwap (s : VWAPState) : Option ℚ :=
  if s.volume_sum ≤ 0 then none else some (s.price_volume_sum / s.volume_sum)

/-- `VWAPCalculator.get_context(price)`: distance from VWAP, slope of the
rolling VWAP history, acceptance zone (`ABOVE`/`BELOW`/`NEAR` at a 0.35%
threshold), pressure and a score in `[-2, 2]`; the near-VWAP "magnet zone"
scores `-1.0`. -/
def VWAPState.get_context (s : VWAPState) (price : ℚ) : VWAPContext :=
  match s.get_vwap with
  | none =>
      { vwap := none, distance_pct := (0/10), slope := (0/10), acceptance := "NEAR",
        pressure := "NEUTRAL", score := (0/10), comment := "VWAP unavailable" }
  | some vwap =>
      let distance_pct := (price - vwap) / vwap * (1000/10)
      let slope : ℚ :=
        if 2 ≤ s.vwap_history.length then
          nthBack s.vwap_history 1 - s.vwap_history.getD 0 0
        else (0/10)
      let acceptance : String :=
        if ((35/100):ℚ) < distance_pct then "ABOVE"
        else if distance_pct < (-(35/100):ℚ) then "BELOW"
        else "NEAR"
      let psc : String × ℚ × String :=
        if acceptance = "ABOVE" ∧ 0 < slope then
          ("BUYING", (18/10), "strong_acceptance_above_vwap")
        else if acceptance = "BELOW" ∧ slope < 0 then
          ("SELLING", -(18/10), "strong_acceptance_below_vwap")
        else if acceptance = "ABOVE" ∨ acceptance = "BELOW" then
          ("NEUTRAL", -(8/10), "distance_without_slope")
        else
          ("NEUTRAL", -(10/10), "near_vwap_magnet_zone")
      let score := max (min psc.2.1 (20/10)) (-(20/10))
      { vwap := some (pyRound 6 vwap), distance_pct := pyRound 3 distance_pct,
        slope := pyRound 6 slope, acceptance := acceptance,
        pressure := psc.1, score := score, comment := psc.2.2 }

/-- Claim C7: whenever the VWAP is defined (cumulative volume > 0) and the
price is within 0.35% of it, `get_context` returns acceptance `NEAR`, score
exactly `-1.0` and pressure `NEUTRAL`, for every value of the slope. -/
theorem get_context_magnet_zone (s : VWAPState) (price : ℚ)
    (hvol : 0 < s.volume_sum)
    (hnear : |(price - s.price_volume_sum / s.volume_sum)
              / (s.price_volume_sum / s.volume_sum) * 100| ≤ (35/100)) :
    (s.get_context price).acceptance = "NEAR"
    ∧ (s.get_context price).score = -(10/10)
    ∧ (s.get_context price).pressure = "NEUTRAL" := by
  have hv : s.get_vwap = some (s.price_volume_sum / s.volume_sum) := by
    unfold VWAPState.get_vwap
    rw [if_neg (not_le.mpr hvol)]
  obtain ⟨h₁, h₂⟩ := abs_le.mp hnear
  unfold VWAPState.get_context
  rw [hv]
  simp only
  rw [if_neg (by linarith), if_neg (by linarith)]
  have hA : (("NEAR":String) = "ABOVE") = False := by simp
  have hB : (("NEAR":String) = "BELOW") = False := by simp
  simp only [hA, hB, false_and, or_self, if_false, false_or]
  norm_num

/-- Witness for C7 at a concrete state: total volume 2, price-volume sum 200
(VWAP 100), price 100.2 (distance 0.2% ≤ 0.35%), nonempty slope history. -/
theorem get_context_magnet_zone_witness :
    (0:ℚ) < (2:ℚ)
    ∧ (({ window := none, slope_window := 6, price_volume_sum := 200,
          volume_sum := 2, vwap_history := [99, (1005/10)],
          price_volume_deque := [], volume_deque := [] : VWAPState }).get_context
            (1002/10)).acceptance = "NEAR" := by
  refine ⟨by norm_num, ?_⟩
  exact (get_context_magnet_zone _ (1002/10) (by norm_num)
    (by with_unfolding_all decide)).1

/-- Claim C9: `update` with a missing price, missing volume, or volume ≤ 0
returns `None` and leaves the whole VWAP state unchanged. -/
theorem update_invalid_input_noop (s : VWAPState) (price volume : Option ℚ)
    (h : price = none ∨ volume = none ∨ ∃ v, volume = some v ∧ v ≤ 0) :
    s.update price volume = (none, s) := by
  unfold VWAPState.update
  rcases h with h | h | ⟨v, hv, hv0⟩
  · subst h; rfl
  · subst h; cases price <;> rfl
  · subst hv
    cases price with
    | none => rfl
    | some p => simp [if_pos hv0]

/-- Witness for C9: updating with volume 0 from a populated state. -/
theorem update_invalid_input_noop_witness :
    (({ window := some 5, slope_window := 6, price_volume_sum := 200,
        volume_sum := 2, vwap_history := [100], price_volume_deque := [200],
        volume_deque := [2] : VWAPState }).update (some 101) (some 0))
      = (none, { window := some 5, slope_window := 6, price_volume_sum := 200,
                 volume_sum := 2, vwap_history := [100],
                 price_volume_deque := [200], volume_deque := [2] }) :=
  update_invalid_input_noop _ (some 101) (some 0)
    (Or.inr (Or.inr ⟨0, rfl, le_refl 0⟩))

/-! ### `strategy/sr_levels.py` -/

/-- A clustered SR level dict: `{"level", "count", "strength"}`. -/
structure SRCluster where
  level : ℚ
  count : ℕ
  strength : ℚ
  deriving DecidableEq

/-- The `{"supports": [...], "resistances": [...]}` dict. -/
structure SRLevels where
  supports : List SRCluster
  resistances : List SRCluster
  deriving DecidableEq

/-- The nearest-level dict returned by `get_nearest_sr`. -/
structure NearestSR where
  type : String
  level : ℚ
  dist_pct : ℚ
  strength : ℚ
  deriving DecidableEq

/-- `_find_local_extrema(values, window)`: symmetric-neighborhood pivots.
Index `i` (for `half ≤ i < n - half`, `half = window // 2`) is a maximum when
strictly above all values in `values[i-half:i]` and `values[i+1:i+1+half]`,
dually for minima.  Returns `(maxima, minima)` as (index, value) pairs. -/
def find_local_extrema (values : List ℚ) (window : ℕ := 11) :
    List (ℕ × ℚ) × List (ℕ × ℚ) :=
  let n := values.length
  if n < window * 2 + 1 then ([], []) else
  let half := window / 2
  let idxs := (List.range (n - half - half)).map (· + half)
  let neighborhood := fun (i : ℕ) =>
    ((values.take i).drop (i - half)) ++ ((values.take (i + 1 + half)).drop (i + 1))
  let maxima := (idxs.filter fun i =>
      (neighborhood i).all fun x => decide (x < values.getD i 0)).map
      fun i => (i, values.getD i 0)
  let minima := (idxs.filter fun i =>
      (neighborhood i).all fun x => decide (values.getD i 0 < x)).map
      fun i => (i, values.getD i 0)
  (maxima, minima)

/-- One step of `_cluster_levels`' grouping loop: extend the running cluster
when the new peak is within `tol_pct` of the running average, else close it. -/
def clusterStep (tol_pct : ℚ) (acc : List (List ℚ) × List ℚ) (p : ℚ) :
    List (List ℚ) × List ℚ :=
  let cluster := acc.2
  let avg := cluster.sum / (cluster.length : ℚ)
  let tol := avg * tol_pct
  if |p - avg| ≤ tol then (acc.1, cluster ++ [p])
  else (acc.1 ++ [cluster], [p])

/-- `_cluster_levels(peaks, tol_pct)`: sort the pivot prices, group runs within
tolerance of the running cluster average, drop single-touch clusters, and
return level (mean, rounded to 6 decimals), touch count and strength
`min(count, 5)`. -/
def cluster_levels (peaks : List ℚ) (tol_pct : ℚ := (45/10000)) : List SRCluster :=
  match peaks.mergeSort (fun a b => decide (a ≤ b)) with
  | [] => []
  | p₀ :: rest =>
    let acc := rest.foldl (clusterStep tol_pct) ([], [p₀])
    let clusters := acc.1 ++ [acc.2]
    (clusters.filter fun c => 2 ≤ c.length).map fun c =>
      { level := pyRound 6 (c.sum / (c.length : ℚ)), count := c.length,
        strength := min (c.length : ℚ) 5 }

/-- `compute_sr_levels(highs, lows, ...)`: pivot highs of the last `lookback`
highs clustered into resistances, pivot lows clustered into supports, each
sorted by strength (then price) and capped to the `max_levels` strongest. -/
def compute_sr_levels (highs lows : List ℚ) (lookback : ℕ := 420)
    (extrema_window : ℕ := 11) (cluster_tol_pct : ℚ := (45/10000))
    (max_levels : ℕ := 2) : SRLevels :=
  let highs_s := lastN highs lookback
  let lows_s := lastN lows lookback
  if highs_s.isEmpty ∨ lows_s.isEmpty then { supports := [], resistances := [] }
  else
    let max_extrema := (find_local_extrema highs_s extrema_window).1
    let min_extrema := (find_local_extrema lows_s extrema_window).2
    let resistances := max_extrema.map (·.2)
    let supports := min_extrema.map (·.2)
    let resist_clusters := cluster_levels resistances cluster_tol_pct
    let supp_clusters := cluster_levels supports cluster_tol_pct
    let supp_sorted := (supp_clusters.mergeSort fun a b =>
      decide (b.strength < a.strength ∨ (b.strength = a.strength ∧ a.level ≤ b.level))).take max_levels
    let res_sorted := (resist_clusters.mergeSort fun a b =>
      decide (b.strength < a.strength ∨ (b.strength = a.strength ∧ b.level ≤ a.level))).take max_levels
    { supports := supp_sorted, resistances := res_sorted }

/-- Distance of a support candidate from the query price, as in the source:
`abs(price - lvl) / max(lvl, 1e-9)`. -/
def supportDist (price : ℚ) (s : SRCluster) : ℚ :=
  |price - s.level| / max s.level (1 / 10^9)

/-- Distance of a resistance candidate from the query price, as in the source:
`abs(lvl - price) / max(price, 1e-9)`. -/
def resistDist (price : ℚ) (r : SRCluster) : ℚ :=
  |r.level - price| / max price (1 / 10^9)

/-- Is the new distance strictly better than the running best (`inf` when no
best yet)?  Mirrors `dist < best_dist`. -/
def strictlyBetter (best : Option NearestSR) (dist : ℚ) : Bool :=
  match best with
  | none => true
  | some b => decide (dist < b.dist_pct)

/-- The support scan of `get_nearest_sr` (`for s in supports: ...`). -/
def nearestSupFold (price : ℚ) : List SRCluster → Option NearestSR → Option NearestSR
  | [], best => best
  | s :: rest, best =>
    nearestSupFold price rest
      (if strictlyBetter best (supportDist price s) then
        some { type := "support", level := s.level, dist_pct := supportDist price s,
               strength := s.strength }
      else best)

/-- The resistance scan of `get_nearest_sr` (`for r in resistances: ...`). -/
def nearestResFold (price : ℚ) : List SRCluster → Option NearestSR → Option NearestSR
  | [], best => best
  | r :: rest, best =>
    nearestResFold price rest
      (if strictlyBetter best (resistDist price r) then
        some { type := "resistance", level := r.level, dist_pct := resistDist price r,
               strength := r.strength }
      else best)

/-- `get_nearest_sr(price, sr_levels, max_search_pct)`: scan supports, then
resistances, keeping the candidate with the strictly smallest distance; return
it only when within `max_search_pct`. -/
def get_nearest_sr (price : ℚ) (sr_levels : SRLevels)
    (max_search_pct : ℚ := (18/1000)) : Option NearestSR :=
  let best := nearestResFold price sr_levels.resistances
    (nearestSupFold price sr_levels.supports none)
  match best with
  | some b => if b.dist_pct ≤ max_search_pct then some b else none
  | none => none

/-- `sr_location_score(price, nearest_sr, direction, proximity_threshold)`. -/
def sr_location_score (price : ℚ) (nearest_sr : Option NearestSR)
    (direction : String) (proximity_threshold : ℚ := (15/1000)) : ℚ :=
  match nearest_sr with
  | none => (0/10)
  | some n =>
    let dist := n.dist_pct
    if proximity_threshold < dist then (0/10)
    else
      let closeness := max (0/10) ((proximity_threshold - dist) / proximity_threshold)
      let strength_factor := min (18/10) ((7/10) + (25/100) * n.strength)
      let sign : ℚ :=
        if direction = "LONG" then
          (if n.type = "support" then 1 else if n.type = "resistance" then -1 else 0)
        else if direction = "SHORT" then
          (if n.type = "resistance" then 1 else if n.type = "support" then -1 else 0)
        else 0
      let score := sign * closeness * strength_factor
      pyRound 3 (max (min score (12/10)) (-(12/10)))

/-- Extending the support scan from an existing best never increases the best
distance, and the result is the old best or some support-typed candidate. -/
theorem nearestSupFold_mono (price : ℚ) (l : List SRCluster) (x : NearestSR) :
    ∃ b, nearestSupFold price l (some x) = some b ∧ b.dist_pct ≤ x.dist_pct
      ∧ (b = x ∨ b.type = "support") := by
  induction l generalizing x with
  | nil => exact ⟨x, rfl, le_refl _, Or.inl rfl⟩
  | cons a t ih =>
    show ∃ b, nearestSupFold price t _ = some b ∧ _
    by_cases h : supportDist price a < x.dist_pct
    · rw [if_pos (by simpa [strictlyBetter] using h)]
      obtain ⟨b, hb, hd, ht⟩ := ih
        { type := "support", level := a.level, dist_pct := supportDist price a,
          strength := a.strength }
      refine ⟨b, hb, le_trans hd (le_of_lt h), Or.inr ?_⟩
      rcases ht with rfl | ht
      · rfl
      · exact ht
    · rw [if_neg (by simpa [strictlyBetter] using h)]
      exact ih x

/-- The support scan, started from nothing or from a support, lands on a
support whose distance is at most that of any listed support candidate. -/
theorem nearestSupFold_le (price : ℚ) (l : List SRCluster) (s : SRCluster)
    (hs : s ∈ l) (b0 : Option NearestSR)
    (hb : b0 = none ∨ ∃ x, b0 = some x ∧ x.type = "support") :
    ∃ b, nearestSupFold price l b0 = some b ∧ b.type = "support"
      ∧ b.dist_pct ≤ supportDist price s := by
  induction l generalizing b0 with
  | nil => cases hs
  | cons a t ih =>
    rcases List.mem_cons.mp hs with rfl | hst
    · -- the head is the candidate `s`
      rcases hb with rfl | ⟨x, rfl, hx⟩
      · show ∃ b, nearestSupFold price t _ = some b ∧ _
        rw [if_pos (by simp [strictlyBetter])]
        rcases t.eq_nil_or_concat with rfl | _
        · exact ⟨_, rfl, rfl, le_refl _⟩
        · obtain ⟨b, hb', hd, ht⟩ := nearestSupFold_mono price t
            { type := "support", level := s.level, dist_pct := supportDist price s,
              strength := s.strength }
          refine ⟨b, hb', ?_, hd⟩
          rcases ht with rfl | ht
          · rfl
          · exact ht
      · show ∃ b, nearestSupFold price t _ = some b ∧ _
        by_cases h : supportDist price s < x.dist_pct
        · rw [if_pos (by simpa [strictlyBetter] using h)]
          obtain ⟨b, hb', hd, ht⟩ := nearestSupFold_mono price t
            { type := "support", level := s.level, dist_pct := supportDist price s,
              strength := s.strength }
          refine ⟨b, hb', ?_, hd⟩
          rcases ht with rfl | ht
          · rfl
          · exact ht
        · rw [if_neg (by simpa [strictlyBetter] using h)]
          obtain ⟨b, hb', hd, ht⟩ := nearestSupFold_mono price t x
          refine ⟨b, hb', ?_, le_trans hd (not_lt.mp h)⟩
          rcases ht with rfl | ht
          · exact hx
          · exact ht
    · -- the candidate is in the tail; one step preserves the invariant
      rcases hb with rfl | ⟨x, rfl, hx⟩
      · show ∃ b, nearestSupFold price t _ = some b ∧ _
        rw [if_pos (by simp [strictlyBetter])]
        exact ih hst _ (Or.inr ⟨_, rfl, rfl⟩)
      · show ∃ b, nearestSupFold price t _ = some b ∧ _
        by_cases h : supportDist price a < x.dist_pct
        · rw [if_pos (by simpa [strictlyBetter] using h)]
          exact ih hst _ (Or.inr ⟨_, rfl, rfl⟩)
        · rw [if_neg (by simpa [strictlyBetter] using h)]
          exact ih hst _ (Or.inr ⟨x, rfl, hx⟩)

/-- The resistance scan keeps the incumbent best when no resistance candidate
is strictly closer. -/
theorem nearestResFold_keep (price : ℚ) (l : List SRCluster) (b : NearestSR)
    (h : ∀ r ∈ l, ¬ resistDist price r < b.dist_pct) :
    nearestResFold price l (some b) = some b := by
  induction l with
  | nil => rfl
  | cons a t ih =>
    show nearestResFold price t _ = some b
    rw [if_neg (by simpa [strictlyBetter] using h a (List.mem_cons_self a t))]
    exact ih fun r hr => h r (List.mem_cons_of_mem a hr)

/-- Claim C8 (amended): in `get_nearest_sr`, when a support candidate is within
the search distance and no resistance candidate is strictly closer than it
(equal percentage distance included), the returned level is a support —
supports are scanned first and a later candidate replaces the best only on a
strictly smaller distance; strength is never consulted. -/
theorem get_nearest_sr_tiebreak_support (price : ℚ) (sr : SRLevels)
    (max_search_pct : ℚ) (s : SRCluster) (hs : s ∈ sr.supports)
    (hmax : supportDist price s ≤ max_search_pct)
    (hle : ∀ r ∈ sr.resistances, supportDist price s ≤ resistDist price r) :
    ∃ b, get_nearest_sr price sr max_search_pct = some b ∧ b.type = "support" := by
  obtain ⟨b, hb, hbt, hbd⟩ := nearestSupFold_le price sr.supports s hs none (Or.inl rfl)
  have hkeep := nearestResFold_keep price sr.resistances b
    (fun r hr => not_lt.mpr (le_trans hbd (hle r hr)))
  refine ⟨b, ?_, hbt⟩
  unfold get_nearest_sr
  rw [hb, hkeep]
  exact if_pos (le_trans hbd hmax)

/-- Witness for the amended C8: price 100, a weak support at 100.05 and a
stronger but farther resistance at 101; a support is returned. -/
theorem get_nearest_sr_tiebreak_support_witness :
    ∃ b, get_nearest_sr 100
          { supports := [{ level := (10005/100), count := 2, strength := 1 }],
            resistances := [{ level := 101, count := 3, strength := 5 }] } (18/1000)
          = some b ∧ b.type = "support" :=
  get_nearest_sr_tiebreak_support 100 _ (18/1000) _ (List.mem_singleton.mpr rfl)
    (by with_unfolding_all decide)
    (by
      intro r hr
      rw [List.mem_singleton] at hr
      subst hr
      with_unfolding_all decide)

/-- Counterexample to C8 as stated: a support of strength 1 and a resistance
of strength 5 both at distance 0 from the query price (equidistant, within the
max-search distance), yet `get_nearest_sr` returns the weaker support, not the
level with the higher strength. -/
theorem get_nearest_sr_tiebreak_counterexample :
    supportDist 100 { level := 100, count := 2, strength := 1 }
      = resistDist 100 { level := 100, count := 2, strength := 5 }
    ∧ (1:ℚ) < 5
    ∧ get_nearest_sr 100
        { supports := [{ level := 100, count := 2, strength := 1 }],
          resistances := [{ level := 100, count := 2, strength := 5 }] } (18/1000)
        = some { type := "support", level := 100, dist_pct := 0, strength := 1 } := by
  refine ⟨?_, ?_, ?_⟩ <;> with_unfolding_all decide

/-! ### `strategy/volatility_filter.py` (not in the available sources) -/

/-- Result record of the volatility analysis. -/
structure VolatilityContext where
  state : String
  score : ℚ
  deriving DecidableEq

/-- True ranges of aligned bars: the first two lists run over bars
`1..period`, the third supplies the previous closes starting at bar `0`. -/
def trueRanges : List ℚ → List ℚ → List ℚ → List ℚ
  | h :: hs, l :: ls, pc :: cs => (max (h - l) (max |h - pc| |l - pc|)) :: trueRanges hs ls cs
  | _, _, _ => []

/-- Modelled from the spec: `volatility_filter.compute_atr` is not among the
available sources.  Average true range per §4.2 of the spec: the mean of the
true range — `max(high-low, |high-prevClose|, |low-prevClose|)` — over a
period (14, as the breakout detector passes explicitly), returning the
"insufficient data" signal `none` when the history is shorter than
`period + 1` bars. -/
def compute_atr (highs lows closes : List ℚ) (period : ℕ := 14) : Option ℚ :=
  if highs.length < period + 1 ∨ lows.length < period + 1
      ∨ closes.length < period + 1 ∨ period = 0 then none
  else
    let hs := lastN highs (period + 1)
    let ls := lastN lows (period + 1)
    let cs := lastN closes (period + 1)
    let trs := trueRanges (hs.drop 1) (ls.drop 1) cs
    some (trs.sum / (period : ℚ))

/-- Modelled from the spec: `volatility_filter.analyze_volatility` is not
among the available sources.  Per §4.8/§4.9 the pipeline requires volatility
in an "EXPANDING" state, with insufficient ATR history treated as a non-match
(§7b): the state is `EXPANDING` exactly when an ATR is available, positive,
and the current move reaches it. -/
def analyze_volatility (current_move : ℚ) (atr_value : Option ℚ) :
    VolatilityContext :=
  match atr_value with
  | none => { state := "UNKNOWN", score := (0/10) }
  | some a =>
    if a ≤ 0 then { state := "UNKNOWN", score := (0/10) }
    else if a ≤ |current_move| then { state := "EXPANDING", score := (10/10) }
    else { state := "CONTRACTING", score := (0/10) }

/-! ### `strategy/liquidity_filter.py` (not in the available sources) -/

/-- Result record of the liquidity analysis. -/
structure LiquidityContext where
  level : String
  score : ℚ
  deriving DecidableEq

/-- Modelled from the spec: `liquidity_filter.analyze_liquidity` is not among
the available sources.  Per §4.9 the decision engine only rejects `LOW` and
`ILLIQUID` levels; the model grades the trailing 20-bar average volume, with
insufficient history treated as illiquid (§7b). -/
def analyze_liquidity (volumes : List ℚ) : LiquidityContext :=
  if volumes.length < 20 then { level := "ILLIQUID", score := (0/10) }
  else
    let avg := (lastN volumes 20).sum / 20
    if (100000:ℚ) ≤ avg then { level := "HIGH", score := (5/10) }
    else if (10000:ℚ) ≤ avg then { level := "MODERATE", score := (25/100) }
    else if 0 < avg then { level := "LOW", score := (0/10) }
    else { level := "ILLIQUID", score := (0/10) }

/-! ### `strategy/price_action.py` -/

/-- The dict returned by `rejection_info`. -/
structure RejectionInfo where
  rejection_type : Option String
  rejection_score : ℚ
  upper_wick : ℚ
  lower_wick : ℚ
  body : ℚ
  range : ℚ
  deriving DecidableEq

/-- `rejection_info(open, high, low, close)`: quantifies rejection wicks. -/
def rejection_info (open_p high low close : ℚ) : RejectionInfo :=
  let body := |close - open_p|
  let total := max (high - low) (1 / 10^9)
  let upper := max (0/10) (high - max close open_p)
  let lower := max (0/10) (min close open_p - low)
  let upper_rel := upper / total
  let lower_rel := lower / total
  let body_rel := body / total
  let ts : Option String × ℚ :=
    if body_rel * 2 < lower_rel ∧ ((15/100):ℚ) < lower_rel then
      (some "BULLISH", min (10/10) ((lower_rel - (15/100)) / (5/10)))
    else if body_rel * 2 < upper_rel ∧ ((15/100):ℚ) < upper_rel then
      (some "BEARISH", min (10/10) ((upper_rel - (15/100)) / (5/10)))
    else (none, (0/10))
  { rejection_type := ts.1, rejection_score := pyRound 3 ts.2,
    upper_wick := pyRound 6 upper, lower_wick := pyRound 6 lower,
    body := pyRound 6 body, range := pyRound 6 total }

/-- `detect_pullback_in_trend(prices, ema_short, ema_long, lookback,
max_depth_pct)`: a shallow counter-trend retreat in the EMA trend direction.
Returns the `(type, depth)` pair of the result dict. -/
def detect_pullback_in_trend (prices : List ℚ) (ema_short ema_long : Option ℚ := none)
    (lookback : ℕ := 8) (max_depth_pct : ℚ := (4/1000)) : Option (String × ℚ) :=
  if prices.isEmpty ∨ prices.length < lookback + 1 then none
  else
    let last := nthBack prices 1
    let window := (prices.drop (prices.length - (lookback + 1))).dropLast
    if window.isEmpty then none
    else
      let high := pyMax window
      let low := pyMin window
      let trend : Option String :=
        match ema_short, ema_long with
        | some es, some el => some (if el < es then "UP" else "DOWN")
        | _, _ => none
      let pull_up := (high - last) / high
      let pull_down := (last - low) / low
      if trend = some "UP" ∧ 0 < pull_up ∧ pull_up ≤ max_depth_pct then
        some ("PULLBACK_UP", pyRound 6 pull_up)
      else if trend = some "DOWN" ∧ 0 < pull_down ∧ pull_down ≤ max_depth_pct then
        some ("PULLBACK_DOWN", pyRound 6 pull_down)
      else none

/-- The dict returned by `price_action_context`. -/
structure PAContext where
  pullback : Option String
  pullback_depth : ℚ
  rejection_type : Option String
  rejection_score : ℚ
  retest_ok : Bool
  score : ℚ
  comment : String
  deriving DecidableEq

/-- `price_action_context(prices, highs, lows, opens, closes, ema_short,
ema_long)`: conservative price-action score in `[-1, 1]` from pullback,
rejection wick, EMA alignment and breakout-retest contributions. -/
def price_action_context (prices highs lows opens closes : List ℚ)
    (ema_short ema_long : Option ℚ := none) : PAContext :=
  if prices.isEmpty ∨ prices.length < 8 then
    { pullback := none, pullback_depth := (0/10), rejection_type := none,
      rejection_score := (0/10), retest_ok := false, score := (0/10),
      comment := "insufficient data" }
  else
    let pb := detect_pullback_in_trend prices ema_short ema_long
    let rej := rejection_info (nthBack opens 1) (nthBack highs 1)
      (nthBack lows 1) (nthBack closes 1)
    let score : ℚ :=
      (if (pb.map (·.1)) = some "PULLBACK_UP" then (2/10)
       else if (pb.map (·.1)) = some "PULLBACK_DOWN" then -(2/10) else 0)
    let score : ℚ :=
      if rej.rejection_type = some "BULLISH" then score + (5/10) * rej.rejection_score
      else if rej.rejection_type = some "BEARISH" then score - (5/10) * rej.rejection_score
      else score
    let score : ℚ :=
      match ema_short, ema_long with
      | some es, some el =>
        let score := if el < es ∧ rej.rejection_type = some "BULLISH" then score + (15/100) else score
        if es < el ∧ rej.rejection_type = some "BEARISH" then score - (15/100) else score
      | _, _ => score
    let retest := 1 < closes.length ∧ nthBack highs 2 < nthBack closes 1
    let score : ℚ := if retest then score + (3/10) else score
    { pullback := pb.map (·.1), pullback_depth := (pb.map (·.2)).getD (0/10),
      rejection_type := rej.rejection_type, rejection_score := rej.rejection_score,
      retest_ok := decide retest, score := pyRound 3 (max (-(10/10)) (min score (10/10))),
      comment := "" }

/-! ### `strategy/pullback_detector.py` -/

/-- The five named score components of a pullback signal. -/
structure PullbackComponents where
  location : ℚ
  price_action : ℚ
  volume : ℚ
  volatility : ℚ
  momentum : ℚ
  deriving DecidableEq

/-- The dict returned by `detect_pullback_signal`. -/
structure PullbackSignal where
  signal : String
  direction : String
  score : ℚ
  nearest_level : NearestSR
  components : PullbackComponents
  ctx_volatility : String
  ctx_volume : String
  ctx_rejection : Option String
  reason : String
  deriving DecidableEq

/-- Stages 2–8 of `detect_pullback_signal`, after the structural location and
trade direction have been fixed: extension filter, volatility quality, price
reaction, volume confirmation, momentum confirmation, confidence scoring and
classification. -/
def pullbackAfterDirection (highs lows closes volumes : List ℚ)
    (max_proximity : ℚ) (nearest : NearestSR) (trade_direction : String) :
    Option PullbackSignal :=
  match compute_atr highs lows closes with
  | none => none
  | some atr =>
    if atr = 0 then none
    else if atr * (14/10) < |nthBack closes 1 - nthBack closes 8| then none
    else
      let volat_ctx := analyze_volatility
        (nthBack closes 1 - nthBack closes 2) (some atr)
      if volat_ctx.state ≠ "EXPANDING" then none
      else
        let last_bar_rejection := rejection_info (nthBack closes 2)
          (nthBack highs 1) (nthBack lows 1) (nthBack closes 1)
        let price_reaction : Prop :=
          if trade_direction = "LONG" then
            (last_bar_rejection.rejection_type = some "BULLISH"
              ∧ (4/10) < last_bar_rejection.rejection_score)
            ∨ pyMax (closes.dropLast.drop (closes.length - 4)) < nthBack closes 1
          else
            (last_bar_rejection.rejection_type = some "BEARISH"
              ∧ (4/10) < last_bar_rejection.rejection_score)
            ∨ nthBack closes 1 < pyMin (closes.dropLast.drop (closes.length - 4))
        if ¬price_reaction then none
        else
          let vol_ctx := analyze_volume volumes (some closes)
          if vol_ctx.score < (10/10) then none
          else if trade_direction = "LONG" ∧ nthBack closes 1 - nthBack closes 6 ≤ 0 then
            none
          else if trade_direction = "SHORT" ∧ 0 ≤ nthBack closes 1 - nthBack closes 6 then
            none
          else
            let components : PullbackComponents :=
              { location := min (max 0 ((max_proximity - nearest.dist_pct) * 80)) (25/10),
                price_action := (20/10),
                volume := min vol_ctx.score (20/10),
                volatility := (15/10),
                momentum := (15/10) }
            let total_score := components.location + components.price_action
              + components.volume + components.volatility + components.momentum
            if ((65/10):ℚ) ≤ total_score then
              some { signal := "CONFIRMED", direction := trade_direction,
                     score := pyRound 2 total_score, nearest_level := nearest,
                     components := components,
                     ctx_volatility := volat_ctx.state,
                     ctx_volume := vol_ctx.strength,
                     ctx_rejection := last_bar_rejection.rejection_type,
                     reason := "CONFIRMED_" ++ trade_direction }
            else if ((45/10):ℚ) ≤ total_score then
              some { signal := "POTENTIAL", direction := trade_direction,
                     score := pyRound 2 total_score, nearest_level := nearest,
                     components := components,
                     ctx_volatility := volat_ctx.state,
                     ctx_volume := vol_ctx.strength,
                     ctx_rejection := last_bar_rejection.rejection_type,
                     reason := "POTENTIAL_" ++ trade_direction }
            else none

/-- `detect_pullback_signal(prices, highs, lows, closes, volumes,
htf_direction, max_proximity, min_bars)`: the strict continuation-focused
pullback detector — minimum history, structural location at a strong SR level
whose side matches the HTF direction, then `pullbackAfterDirection`. -/
def detect_pullback_signal (prices highs lows closes volumes : List ℚ)
    (htf_direction : String) (max_proximity : ℚ := (15/1000)) (min_bars : ℕ := 45) :
    Option PullbackSignal :=
  if prices.length < min_bars then none
  else
    let last_price := nthBack closes 1
    let sr := compute_sr_levels highs lows
    match get_nearest_sr last_price sr max_proximity with
    | none => none
    | some nearest =>
      if nearest.strength < 2 then none
      else
        let td? : Option String :=
          if nearest.type = "support" ∧ htf_direction = "BULLISH" then some "LONG"
          else if nearest.type = "resistance" ∧ htf_direction = "BEARISH" then some "SHORT"
          else none
        match td? with
        | none => none
        | some trade_direction =>
          pullbackAfterDirection highs lows closes volumes max_proximity
            nearest trade_direction

/-- Abbreviation for the component sum carried by a pullback signal. -/
def componentSum (r : PullbackSignal) : ℚ :=
  r.components.location + r.components.price_action + r.components.volume
    + r.components.volatility + r.components.momentum

/-- Any successful result of the post-direction pullback stages reports the
rounded component sum as its score, classifies by the unrounded sum against
the 6.5 / 4.5 thresholds, and keeps the given trade direction. -/
theorem pullbackAfterDirection_success (highs lows closes volumes : List ℚ)
    (max_proximity : ℚ) (nearest : NearestSR) (trade_direction : String)
    (r : PullbackSignal)
    (h : pullbackAfterDirection highs lows closes volumes max_proximity
          nearest trade_direction = some r) :
    r.direction = trade_direction
    ∧ r.score = pyRound 2 (componentSum r)
    ∧ (r.signal = "CONFIRMED" ↔ ((65/10):ℚ) ≤ componentSum r)
    ∧ (r.signal = "POTENTIAL" ↔ (((45/10):ℚ) ≤ componentSum r ∧ componentSum r < (65/10)))
    ∧ ((45/10):ℚ) ≤ componentSum r := by
  unfold pullbackAfterDirection at h
  cases ha : compute_atr highs lows closes with
  | none => rw [ha] at h; exact Option.noConfusion h
  | some atr =>
  rw [ha] at h
  simp only [] at h
  by_cases h0 : atr = 0
  · rw [if_pos h0] at h; exact Option.noConfusion h
  rw [if_neg h0] at h
  by_cases hext : atr * (14/10) < |nthBack closes 1 - nthBack closes 8|
  · rw [if_pos hext] at h; exact Option.noConfusion h
  rw [if_neg hext] at h
  by_cases hvs : (analyze_volatility (nthBack closes 1 - nthBack closes 2)
      (some atr)).state ≠ "EXPANDING"
  · rw [if_pos hvs] at h; exact Option.noConfusion h
  rw [if_neg hvs] at h
  by_cases hpr : ¬(if trade_direction = "LONG" then
      ((rejection_info (nthBack closes 2) (nthBack highs 1) (nthBack lows 1)
          (nthBack closes 1)).rejection_type = some "BULLISH"
        ∧ (4/10) < (rejection_info (nthBack closes 2) (nthBack highs 1)
          (nthBack lows 1) (nthBack closes 1)).rejection_score)
      ∨ pyMax (closes.dropLast.drop (closes.length - 4)) < nthBack closes 1
    else
      ((rejection_info (nthBack closes 2) (nthBack highs 1) (nthBack lows 1)
          (nthBack closes 1)).rejection_type = some "BEARISH"
        ∧ (4/10) < (rejection_info (nthBack closes 2) (nthBack highs 1)
          (nthBack lows 1) (nthBack closes 1)).rejection_score)
      ∨ nthBack closes 1 < pyMin (closes.dropLast.drop (closes.length - 4)))
  · rw [if_pos hpr] at h; exact Option.noConfusion h
  rw [if_neg hpr] at h
  by_cases hvol : (analyze_volume volumes (some closes)).score < (10/10)
  · rw [if_pos hvol] at h; exact Option.noConfusion h
  rw [if_neg hvol] at h
  by_cases hml : trade_direction = "LONG" ∧ nthBack closes 1 - nthBack closes 6 ≤ 0
  · rw [if_pos hml] at h; exact Option.noConfusion h
  rw [if_neg hml] at h
  by_cases hms : trade_direction = "SHORT" ∧ 0 ≤ nthBack closes 1 - nthBack closes 6
  · rw [if_pos hms] at h; exact Option.noConfusion h
  rw [if_neg hms] at h
  by_cases hc : ((65/10):ℚ) ≤ min (max 0 ((max_proximity - nearest.dist_pct) * 80)) (25/10)
      + (20/10) + min (analyze_volume volumes (some closes)).score (20/10) + (15/10) + (15/10)
  · rw [if_pos hc] at h
    obtain rfl := (Option.some.inj h).symm
    refine ⟨rfl, rfl, ?_, ?_, ?_⟩
    · constructor
      · intro _
        exact hc
      · intro _
        rfl
    · constructor
      · intro hPO
        exact absurd hPO (by simp)
      · rintro ⟨_, hlt⟩
        exact absurd hc (not_le.mpr hlt)
    · exact le_trans (by norm_num) hc
  rw [if_neg hc] at h
  by_cases hp : ((45/10):ℚ) ≤ min (max 0 ((max_proximity - nearest.dist_pct) * 80)) (25/10)
      + (20/10) + min (analyze_volume volumes (some closes)).score (20/10) + (15/10) + (15/10)
  · rw [if_pos hp] at h
    obtain rfl := (Option.some.inj h).symm
    refine ⟨rfl, rfl, ?_, ?_, hp⟩
    · constructor
      · intro hPC
        exact absurd hPC (by simp)
      · intro hge
        exact absurd hge hc
    · constructor
      · intro _
        exact ⟨hp, not_le.mp hc⟩
      · intro _
        rfl
  rw [if_neg hp] at h
  exact Option.noConfusion h

set_option maxRecDepth 4000 in
/-- A successful detection factors through `pullbackAfterDirection` with a
trade direction that is `LONG` or `SHORT`. -/
theorem detect_pullback_signal_factors (prices highs lows closes volumes : List ℚ)
    (htf_direction : String) (max_proximity : ℚ) (min_bars : ℕ) (r : PullbackSignal)
    (h : detect_pullback_signal prices highs lows closes volumes htf_direction
          max_proximity min_bars = some r) :
    ∃ nearest trade_direction,
      (trade_direction = "LONG" ∨ trade_direction = "SHORT")
      ∧ pullbackAfterDirection highs lows closes volumes max_proximity
          nearest trade_direction = some r := by
  unfold detect_pullback_signal at h
  by_cases h45 : prices.length < min_bars
  · rw [if_pos h45] at h; exact Option.noConfusion h
  rw [if_neg h45] at h
  simp only [] at h
  cases hn : get_nearest_sr (nthBack closes 1) (compute_sr_levels highs lows)
      max_proximity with
  | none => rw [hn] at h; exact Option.noConfusion h
  | some nearest =>
  rw [hn] at h
  simp only [] at h
  by_cases hstr : nearest.strength < 2
  · rw [if_pos hstr] at h; exact Option.noConfusion h
  rw [if_neg hstr] at h
  by_cases hsup : nearest.type = "support" ∧ htf_direction = "BULLISH"
  · rw [if_pos hsup] at h
    exact ⟨nearest, "LONG", Or.inl rfl, h⟩
  rw [if_neg hsup] at h
  by_cases hres : nearest.type = "resistance" ∧ htf_direction = "BEARISH"
  · rw [if_pos hres] at h
    exact ⟨nearest, "SHORT", Or.inr rfl, h⟩
  rw [if_neg hres] at h
  exact Option.noConfusion h

/-- Claim C5 (amended): `detect_pullback_signal` returns `none` whenever fewer
than 45 price bars are supplied; every non-`none` result carries a score equal
to the sum of its five components rounded to two decimals (Python's banker's
rounding), is classified `CONFIRMED` exactly when the unrounded component sum
is ≥ 6.5 and `POTENTIAL` exactly when that sum is in `[4.5, 6.5)`, and no
result is returned whose component sum is below 4.5. -/
theorem detect_pullback_signal_contract (prices highs lows closes volumes : List ℚ)
    (htf_direction : String) :
    (prices.length < 45 →
      detect_pullback_signal prices highs lows closes volumes htf_direction = none)
    ∧ ∀ r, detect_pullback_signal prices highs lows closes volumes htf_direction
        = some r →
      r.score = pyRound 2 (componentSum r)
      ∧ (r.signal = "CONFIRMED" ↔ ((65/10):ℚ) ≤ componentSum r)
      ∧ (r.signal = "POTENTIAL" ↔ (((45/10):ℚ) ≤ componentSum r ∧ componentSum r < (65/10)))
      ∧ ((45/10):ℚ) ≤ componentSum r := by
  constructor
  · intro hlen
    unfold detect_pullback_signal
    rw [if_pos hlen]
  · intro r h
    obtain ⟨nearest, td, _, hpb⟩ := detect_pullback_signal_factors prices highs lows
      closes volumes htf_direction (15/1000) 45 r h
    obtain ⟨_, h₁, h₂, h₃, h₄⟩ := pullbackAfterDirection_success highs lows closes
      volumes (15/1000) nearest td r hpb
    exact ⟨h₁, h₂, h₃, h₄⟩

/-- Witness for the amended C5 at empty inputs: fewer than 45 bars gives
`none`, and the success properties hold vacuously. -/
theorem detect_pullback_signal_contract_witness :
    (([] : List ℚ).length < 45 →
      detect_pullback_signal [] [] [] [] [] "BULLISH" = none)
    ∧ ∀ r, detect_pullback_signal [] [] [] [] [] "BULLISH" = some r →
      r.score = pyRound 2 (componentSum r)
      ∧ (r.signal = "CONFIRMED" ↔ ((65/10):ℚ) ≤ componentSum r)
      ∧ (r.signal = "POTENTIAL" ↔ (((45/10):ℚ) ≤ componentSum r ∧ componentSum r < (65/10)))
      ∧ ((45/10):ℚ) ≤ componentSum r :=
  detect_pullback_signal_contract [] [] [] [] [] "BULLISH"

/-- 45 lows at 100.05 with two strict pivot minima of 100 (indices 10 and 20), giving one support cluster at level 100 with strength 2. -/
def pbLows : List ℚ :=
  [(2001/20), (2001/20), (2001/20), (2001/20), (2001/20), (2001/20), (2001/20), (2001/20), (2001/20), (2001/20), 100, (2001/20), (2001/20), (2001/20), (2001/20), (2001/20), (2001/20), (2001/20), (2001/20), (2001/20), 100, (2001/20), (2001/20), (2001/20), (2001/20), (2001/20), (2001/20), (2001/20), (2001/20), (2001/20), (2001/20), (2001/20), (2001/20), (2001/20), (2001/20), (2001/20), (2001/20), (2001/20), (2001/20), (2001/20), (2001/20), (2001/20), (2001/20), (2001/20), (2001/20)]

/-- 45 strictly increasing highs (no pivot maxima, hence no resistances). -/
def pbHighs : List ℚ :=
  [(2003/20), (100151/1000), (12519/125), (100153/1000), (50077/500), (20031/200), (25039/250), (100157/1000), (50079/500), (100159/1000), (2504/25), (100161/1000), (50081/500), (100163/1000), (25041/250), (20033/200), (50083/500), (100167/1000), (12521/125), (100169/1000), (10017/100), (100171/1000), (25043/250), (100173/1000), (50087/500), (4007/40), (12522/125), (100177/1000), (50089/500), (100179/1000), (5009/50), (100181/1000), (50091/500), (100183/1000), (12523/125), (20037/200), (50093/500), (100187/1000), (25047/250), (100189/1000), (10019/100), (100191/1000), (12524/125), (100193/1000), (50097/500)]

/-- 45 closes: flat at 100.12, dipping to 100 / 99.943 before a final close of 100.123 — 0.123% above the support, a fresh 3-bar high, positive 6-bar momentum, and a last move of 0.18 exceeding the ATR. -/
def pbCloses : List ℚ :=
  [(2503/25), (2503/25), (2503/25), (2503/25), (2503/25), (2503/25), (2503/25), (2503/25), (2503/25), (2503/25), (2503/25), (2503/25), (2503/25), (2503/25), (2503/25), (2503/25), (2503/25), (2503/25), (2503/25), (2503/25), (2503/25), (2503/25), (2503/25), (2503/25), (2503/25), (2503/25), (2503/25), (2503/25), (2503/25), (2503/25), (2503/25), (2503/25), (2503/25), (2503/25), (2503/25), (2503/25), (2503/25), (2503/25), (2503/25), (2503/25), (2503/25), 100, 100, (99943/1000), (100123/1000)]

/-- 45 volumes: flat at 1000 with a rising final stretch ending in a 3000 spike (relative volume ≈ 2.73, STRONG, rising, absorption penalty: volume score 1.6). -/
def pbVolumes : List ℚ :=
  [1000, 1000, 1000, 1000, 1000, 1000, 1000, 1000, 1000, 1000, 1000, 1000, 1000, 1000, 1000, 1000, 1000, 1000, 1000, 1000, 1000, 1000, 1000, 1000, 1000, 1000, 1000, 1000, 1000, 1000, 1000, 1000, 1000, 1000, 1000, 1000, 1000, 1000, 1000, 1000, 1000, 1001, 1002, 1003, 3000]


/-- The exact result the detector produces on the `pb*` input below. -/
def pbResult : PullbackSignal :=
  { signal := "CONFIRMED", direction := "LONG", score := (77/10),
    nearest_level := { type := "support", level := 100,
                       dist_pct := (123/100000), strength := 2 },
    components := { location := (1377/1250), price_action := (20/10),
                    volume := (8/5), volatility := (15/10), momentum := (15/10) },
    ctx_volatility := "EXPANDING", ctx_volume := "STRONG",
    ctx_rejection := none, reason := "CONFIRMED_LONG" }

set_option maxRecDepth 2000 in
theorem detect_pullback_signal_pb :
    detect_pullback_signal pbCloses pbHighs pbLows pbCloses pbVolumes "BULLISH"
      = some pbResult := by
  have hc1 : nthBack pbCloses 1 = (100123/1000 : ℚ) :=
    Rat.ext (by with_unfolding_all decide) (by with_unfolding_all decide)
  have hc2 : nthBack pbCloses 2 = (99943/1000 : ℚ) :=
    Rat.ext (by with_unfolding_all decide) (by with_unfolding_all decide)
  have hc6 : nthBack pbCloses 6 = (2503/25 : ℚ) :=
    Rat.ext (by with_unfolding_all decide) (by with_unfolding_all decide)
  have hc8 : nthBack pbCloses 8 = (2503/25 : ℚ) :=
    Rat.ext (by with_unfolding_all decide) (by with_unfolding_all decide)
  have hh1 : nthBack pbHighs 1 = (100194/1000 : ℚ) :=
    Rat.ext (by with_unfolding_all decide) (by with_unfolding_all decide)
  have hl1 : nthBack pbLows 1 = (2001/20 : ℚ) :=
    Rat.ext (by with_unfolding_all decide) (by with_unfolding_all decide)
  have hsr : compute_sr_levels pbHighs pbLows
      = { supports := [{ level := 100, count := 2, strength := 2 }],
          resistances := [] } := by
    with_unfolding_all decide
  have hdist : supportDist (100123/1000) { level := 100, count := 2, strength := 2 }
      = (123/100000) := by
    unfold supportDist
    simp only []
    rw [max_eq_left (by norm_num), abs_of_nonneg (by norm_num)]
    norm_num
  have hnear : get_nearest_sr (100123/1000)
      { supports := [{ level := 100, count := 2, strength := 2 }],
        resistances := [] } (15/1000)
      = some { type := "support", level := 100, dist_pct := (123/100000),
               strength := 2 } := by
    unfold get_nearest_sr
    simp only [nearestSupFold, nearestResFold, strictlyBetter, hdist]
    show (if (123/100000 : ℚ) ≤ (15/1000 : ℚ) then
        some ({ type := "support", level := 100, dist_pct := (123/100000),
                strength := 2 } : NearestSR)
      else none) = _
    rw [if_pos (by norm_num)]
  have hsum : (trueRanges ((lastN pbHighs (14 + 1)).drop 1)
      ((lastN pbLows (14 + 1)).drop 1) (lastN pbCloses (14 + 1))).sum
      = (2132/1000 : ℚ) :=
    Rat.ext (by with_unfolding_all decide) (by with_unfolding_all decide)
  have hatr : compute_atr pbHighs pbLows pbCloses = some (533/3500) := by
    unfold compute_atr
    rw [if_neg (by with_unfolding_all decide)]
    simp only []
    rw [hsum, show (2132/1000 : ℚ) / (14 : ℕ) = 533/3500 from by norm_num]
  have hvolS : (analyze_volume pbVolumes (some pbCloses)).score = (8/5) := by
    with_unfolding_all decide
  have hvolStr : (analyze_volume pbVolumes (some pbCloses)).strength = "STRONG" := by
    with_unfolding_all decide
  have hvolat : analyze_volatility ((100123/1000 : ℚ) - (99943/1000 : ℚ))
      (some (533/3500)) = { state := "EXPANDING", score := (10/10) } := by
    unfold analyze_volatility
    rw [show |(100123/1000 : ℚ) - (99943/1000 : ℚ)| = (18/100 : ℚ) from by
      rw [abs_of_nonneg (by norm_num)]; norm_num]
    show (if (533/3500 : ℚ) ≤ 0 then ({ state := "UNKNOWN", score := (0/10) } : VolatilityContext)
      else if (533/3500 : ℚ) ≤ (18/100 : ℚ) then { state := "EXPANDING", score := (10/10) }
      else { state := "CONTRACTING", score := (0/10) }) = _
    rw [if_neg (by norm_num), if_pos (by norm_num)]
  have hrejT : (rejection_info (99943/1000) (100194/1000) (2001/20)
      (100123/1000)).rejection_type = none := by
    unfold rejection_info
    simp only []
    rw [show min ((100123:ℚ)/1000) (99943/1000) = (99943/1000 : ℚ) from
        min_eq_right (by norm_num),
      show max ((0:ℚ)/10) ((99943/1000 : ℚ) - (2001/20 : ℚ)) = (0/10 : ℚ) from
        max_eq_left (by norm_num)]
    rw [if_neg (fun hC => absurd hC.2 (by
      rw [show max ((100194:ℚ)/1000 - (2001/20:ℚ)) (1/10^9) = (144/1000 : ℚ) from by
        rw [max_eq_left (by norm_num)]; norm_num]
      norm_num))]
    rw [if_neg (fun hC => absurd hC.1 (by
      rw [show max ((100123:ℚ)/1000) ((99943:ℚ)/1000) = (100123/1000 : ℚ) from
          max_eq_left (by norm_num),
        show max ((100194:ℚ)/1000 - (2001/20:ℚ)) (1/10^9) = (144/1000 : ℚ) from by
          rw [max_eq_left (by norm_num)]; norm_num,
        show |(100123:ℚ)/1000 - (99943/1000:ℚ)| = (18/100 : ℚ) from by
          rw [abs_of_nonneg (by norm_num)]; norm_num,
        show max ((0:ℚ)/10) ((100194:ℚ)/1000 - (100123/1000:ℚ)) = (71/1000 : ℚ) from by
          rw [max_eq_right (by norm_num)]; norm_num]
      norm_num))]
  have hlist3 : pbCloses.dropLast.drop (pbCloses.length - 4)
      = [(100:ℚ), 100, (99943/1000)] := by with_unfolding_all rfl
  have hmax3 : pyMax [(100:ℚ), 100, (99943/1000)] = 100 := by
    show max (max (100:ℚ) 100) (99943/1000) = 100
    rw [max_self, max_eq_left (by norm_num)]
  unfold detect_pullback_signal
  rw [if_neg (by with_unfolding_all decide)]
  simp only [hc1, hsr, hnear]
  rw [if_neg (by norm_num)]
  rw [if_pos (by constructor <;> trivial)]
  show pullbackAfterDirection pbHighs pbLows pbCloses pbVolumes (15/1000)
      { type := "support", level := 100, dist_pct := (123/100000), strength := 2 }
      "LONG" = some pbResult
  unfold pullbackAfterDirection
  rw [hatr]
  split
  · rename_i heq
    exact absurd heq (by simp)
  rename_i atr heq
  obtain rfl : atr = (533/3500 : ℚ) := (Option.some.inj heq).symm
  rw [if_neg (by norm_num)]
  simp only [hc1, hc2, hc6, hc8, hh1, hl1]
  rw [show |(100123/1000 : ℚ) - (2503/25 : ℚ)| = (3/1000 : ℚ) from by
    rw [abs_of_nonneg (by norm_num)]; norm_num]
  rw [if_neg (by norm_num)]
  rw [hvolat]
  rw [if_neg (by simp)]
  rw [hlist3, hmax3]
  rw [if_neg (by
    simp only [hrejT]
    norm_num)]
  rw [hvolS, hvolStr]
  rw [if_neg (by norm_num)]
  rw [if_neg (fun hC => absurd hC.2 (by norm_num))]
  rw [if_neg (fun hC => absurd hC.1 (by decide))]
  rw [show min (max (0:ℚ) (((15/1000) - (123/100000)) * 80)) (25/10) = (1377/1250 : ℚ) from by
    rw [max_eq_right (by norm_num), min_eq_left (by norm_num)]; norm_num]
  rw [show min ((8:ℚ)/5) (20/10) = (8/5 : ℚ) from min_eq_left (by norm_num)]
  rw [if_pos (by norm_num)]
  rw [hrejT]
  rw [show pyRound 2 ((1377/1250 : ℚ) + (20/10) + (8/5) + (15/10) + (15/10)) = (77/10 : ℚ) from by
    rw [show (1377/1250 : ℚ) + (20/10) + (8/5) + (15/10) + (15/10) = (9627/1250 : ℚ) from by norm_num]
    exact Rat.ext (by with_unfolding_all decide) (by with_unfolding_all decide)]
  rfl

/-- Counterexample to C5 as stated: on this concrete 45-bar input the detector
returns a `CONFIRMED` result whose five components sum to 7.7016, while the
carried score is the rounded 7.7 — the result's composite score is *not* equal
to the sum of its five components. -/
theorem detect_pullback_score_not_component_sum :
    detect_pullback_signal pbCloses pbHighs pbLows pbCloses pbVolumes "BULLISH"
      = some pbResult
    ∧ pbResult.score ≠ pbResult.components.location
        + pbResult.components.price_action + pbResult.components.volume
        + pbResult.components.volatility + pbResult.components.momentum := by
  refine ⟨detect_pullback_signal_pb, ?_⟩
  show (77/10 : ℚ) ≠ (1377/1250) + (20/10) + (8/5) + (15/10) + (15/10)
  norm_num

/-! ### `strategy/breakout_detector.py` -/

/-- `detect_compression(prices, lookback, compression_ratio)`: the recent
`lookback`-bar range is materially narrower than the preceding equal-length
range. -/
def detect_compression (prices : List ℚ) (lookback : ℕ := 20)
    (compression_ratio : ℚ := (65/100)) : Bool :=
  if prices.length < lookback * 2 then false
  else
    let recent := lastN prices lookback
    let previous := (lastN prices (lookback * 2)).take lookback
    let recent_range := pyMax recent - pyMin recent
    let previous_range := pyMax previous - pyMin previous
    if previous_range ≤ 0 then false
    else decide (recent_range < previous_range * compression_ratio)

/-- The dict returned by `breakout_signal`. -/
structure BreakoutSignal where
  signal : String
  direction : String
  intent_score : ℚ
  range_high : ℚ
  range_low : ℚ
  range_span : ℚ
  break_distance : ℚ
  atr : Option ℚ
  compression : Bool
  follow_through : Bool
  reason : String
  deriving DecidableEq

/-- The stages of `breakout_signal` after the breakout direction and distance
have been fixed: minimum breakout strength, mandatory ATR confirmation,
mandatory volume confirmation, compression / follow-through bonuses and the
final confirmed signal. -/
def breakoutAfterDirection (prices volume_history high_prices low_prices
      close_prices : List ℚ) (min_range_bars : ℕ)
    (min_break_pct_of_range vol_threshold atr_multiplier : ℚ)
    (range_high range_low range_span : ℚ) (direction : String)
    (break_distance : ℚ) : Option BreakoutSignal :=
  if break_distance / range_span < min_break_pct_of_range then none
  else
    match (if ¬high_prices.isEmpty ∧ ¬low_prices.isEmpty ∧ ¬close_prices.isEmpty
           then compute_atr high_prices low_prices close_prices 14 else none) with
    | none => none
    | some atr_val =>
      if atr_val = 0 then none
      else if |nthBack close_prices 1 - nthBack close_prices 2|
          < atr_val * atr_multiplier then none
      else if ¬(¬volume_history.isEmpty ∧ 20 ≤ volume_history.length
          ∧ volume_spike_confirmed volume_history vol_threshold) then none
      else
        let compression := detect_compression prices
        let follow_through :=
          decide ((4/10) * range_span / (min_range_bars : ℚ)
            < |nthBack close_prices 1 - nthBack close_prices 2|)
        let intent_score : ℚ := 3 + (if compression then (5/10) else 0)
          + (if follow_through then (5/10) else 0)
        some { signal := "CONFIRMED", direction := direction,
               intent_score := pyRound 2 intent_score,
               range_high := range_high, range_low := range_low,
               range_span := pyRound 6 range_span,
               break_distance := pyRound 6 break_distance,
               atr := some (pyRound 6 atr_val),
               compression := compression, follow_through := follow_through,
               reason := "STRICT_CONFIRMED_" ++ direction }

/-- `breakout_signal(inst_key, prices, volume_history, high_prices,
low_prices, close_prices, ...)`: the strict breakout detector.  The reference
range comes from the last `min_range_bars` *closed* bars of `prices` (current
bar excluded); a close strictly outside it fixes the direction, then
`breakoutAfterDirection` applies the remaining gates. -/
def breakout_signal (inst_key : String) (prices : List ℚ)
    (volume_history high_prices low_prices close_prices : List ℚ)
    (min_range_bars : ℕ := 20) (min_break_pct_of_range : ℚ := (8/100))
    (vol_threshold : ℚ := (13/10)) (atr_multiplier : ℚ := 1) :
    Option BreakoutSignal :=
  if prices.isEmpty ∨ prices.length < 40 then none
  else
    let last_close := nthBack close_prices 1
    let base := (lastN prices (min_range_bars + 1)).dropLast
    let range_high := pyMax base
    let range_low := pyMin base
    let range_span := max (range_high - range_low) (1/10^9)
    if range_high < last_close then
      breakoutAfterDirection prices volume_history high_prices low_prices
        close_prices min_range_bars min_break_pct_of_range vol_threshold
        atr_multiplier range_high range_low range_span "LONG"
        (last_close - range_high)
    else if last_close < range_low then
      breakoutAfterDirection prices volume_history high_prices low_prices
        close_prices min_range_bars min_break_pct_of_range vol_threshold
        atr_multiplier range_high range_low range_span "SHORT"
        (range_low - last_close)
    else none

/-- A break distance under the configured minimum fraction of the range span
is rejected before any other confirmation is consulted. -/
theorem breakoutAfterDirection_weak_poke (prices volume_history high_prices
      low_prices close_prices : List ℚ) (min_range_bars : ℕ)
    (min_break_pct_of_range vol_threshold atr_multiplier : ℚ)
    (range_high range_low range_span : ℚ) (direction : String)
    (break_distance : ℚ)
    (h : break_distance / range_span < min_break_pct_of_range) :
    breakoutAfterDirection prices volume_history high_prices low_prices
      close_prices min_range_bars min_break_pct_of_range vol_threshold
      atr_multiplier range_high range_low range_span direction break_distance
      = none := by
  unfold breakoutAfterDirection
  rw [if_pos h]
/-- 40 prices whose 20 closed reference bars (indices 19–38) are confined to [99, 101] and span exactly 2 units. -/
def bkPrices : List ℚ :=
  [100, 100, 100, 100, 100, 100, 100, 100, 100, 100, 100, 100, 100, 100, 100, 100, 100, 100, 100, 99, 101, 100, 100, 100, 100, 100, 100, 100, 100, 100, 100, 100, 100, 100, 100, 100, 100, 100, 100, 100]

/-- 40 highs at 100.5 (true range 0.7 per bar, ATR 0.7). -/
def bkHighs : List ℚ :=
  [(201/2), (201/2), (201/2), (201/2), (201/2), (201/2), (201/2), (201/2), (201/2), (201/2), (201/2), (201/2), (201/2), (201/2), (201/2), (201/2), (201/2), (201/2), (201/2), (201/2), (201/2), (201/2), (201/2), (201/2), (201/2), (201/2), (201/2), (201/2), (201/2), (201/2), (201/2), (201/2), (201/2), (201/2), (201/2), (201/2), (201/2), (201/2), (201/2), (201/2)]

/-- 40 lows at 99.8. -/
def bkLows : List ℚ :=
  [(499/5), (499/5), (499/5), (499/5), (499/5), (499/5), (499/5), (499/5), (499/5), (499/5), (499/5), (499/5), (499/5), (499/5), (499/5), (499/5), (499/5), (499/5), (499/5), (499/5), (499/5), (499/5), (499/5), (499/5), (499/5), (499/5), (499/5), (499/5), (499/5), (499/5), (499/5), (499/5), (499/5), (499/5), (499/5), (499/5), (499/5), (499/5), (499/5), (499/5)]

/-- 40 closes: flat at 100 with a final close of 101.3 — 0.3 above the range high, which is 15% of the 2-unit span. -/
def bkCloses : List ℚ :=
  [100, 100, 100, 100, 100, 100, 100, 100, 100, 100, 100, 100, 100, 100, 100, 100, 100, 100, 100, 100, 100, 100, 100, 100, 100, 100, 100, 100, 100, 100, 100, 100, 100, 100, 100, 100, 100, 100, 100, (1013/10)]

/-- Same closes but ending at 101.15 — 0.15 above the range high, under 8% of the 2-unit span (a weak poke). -/
def bkwCloses : List ℚ :=
  [100, 100, 100, 100, 100, 100, 100, 100, 100, 100, 100, 100, 100, 100, 100, 100, 100, 100, 100, 100, 100, 100, 100, 100, 100, 100, 100, 100, 100, 100, 100, 100, 100, 100, 100, 100, 100, 100, 100, (2023/20)]

/-- 40 volumes: flat at 1000, rising finish with a 3000 spike (volume score 2.0). -/
def bkVolumes : List ℚ :=
  [1000, 1000, 1000, 1000, 1000, 1000, 1000, 1000, 1000, 1000, 1000, 1000, 1000, 1000, 1000, 1000, 1000, 1000, 1000, 1000, 1000, 1000, 1000, 1000, 1000, 1000, 1000, 1000, 1000, 1000, 1000, 1000, 1000, 1000, 1000, 1000, 1001, 1002, 1003, 3000]


/-- A left fold by `max` never drops below its initial value. -/
theorem le_foldl_max (b : ℚ) (l : List ℚ) : b ≤ l.foldl max b := by
  induction l generalizing b with
  | nil => exact le_refl b
  | cons a t ih => exact le_trans (le_max_left b a) (ih (max b a))

/-- A left fold by `min` never exceeds its initial value. -/
theorem foldl_min_le (b : ℚ) (l : List ℚ) : l.foldl min b ≤ b := by
  induction l generalizing b with
  | nil => exact le_refl b
  | cons a t ih => exact le_trans (ih (min b a)) (min_le_left b a)

/-- The running minimum of a list never exceeds its running maximum. -/
theorem pyMin_le_pyMax (l : List ℚ) : pyMin l ≤ pyMax l := by
  cases l with
  | nil => exact le_refl 0
  | cons h t => exact le_trans (foldl_min_le h t) (le_foldl_max h t)

set_option maxRecDepth 2000 in
/-- Claim C6 (amended): for every call to `breakout_signal` with at least 40
prices in which the last close lies strictly outside the reference range of
the preceding 20 closed bars, a break distance under 8% of the range span
(`min_break_pct_of_range`) is rejected: the function returns `None`.  (The
spec's scenario with a new close of 101.3 over a 2-unit range does *not*
satisfy this premise — its break distance is 15% of the span — and can return
a confirmed signal; a weak poke such as 101.15 is rejected.) -/
theorem breakout_signal_weak_poke_rejected (inst_key : String)
    (prices volume_history high_prices low_prices close_prices : List ℚ)
    (h40 : 40 ≤ prices.length)
    (houtside :
      (pyMax ((lastN prices 21).dropLast) < nthBack close_prices 1
        ∧ (nthBack close_prices 1 - pyMax ((lastN prices 21).dropLast))
            / max (pyMax ((lastN prices 21).dropLast)
                - pyMin ((lastN prices 21).dropLast)) (1/10^9)
            < (8/100))
      ∨ (nthBack close_prices 1 < pyMin ((lastN prices 21).dropLast)
        ∧ (pyMin ((lastN prices 21).dropLast) - nthBack close_prices 1)
            / max (pyMax ((lastN prices 21).dropLast)
                - pyMin ((lastN prices 21).dropLast)) (1/10^9)
            < (8/100))) :
    breakout_signal inst_key prices volume_history high_prices low_prices
      close_prices = none := by
  unfold breakout_signal
  rw [if_neg (by
    rintro (he | hl)
    · rw [List.isEmpty_iff] at he
      rw [he] at h40
      exact absurd h40 (by norm_num)
    · omega)]
  simp only [Nat.reduceAdd]
  rcases houtside with ⟨hout, hweak⟩ | ⟨hout, hweak⟩
  · rw [if_pos hout]
    exact breakoutAfterDirection_weak_poke _ _ _ _ _ _ _ _ _ _ _ _ _ _ hweak
  · rw [if_neg (by
      intro hgt
      exact absurd (lt_trans hout (lt_of_le_of_lt (pyMin_le_pyMax _) hgt))
        (lt_irrefl _)),
      if_pos hout]
    exact breakoutAfterDirection_weak_poke _ _ _ _ _ _ _ _ _ _ _ _ _ _ hweak

set_option maxRecDepth 2000 in
/-- Witness for the amended C6: last 20 closed bars confined to [99, 101]
(span 2), new close 101.15 — break distance 0.15 < 8% of the span — is
rejected. -/
theorem breakout_signal_weak_poke_rejected_witness :
    (40 ≤ bkPrices.length
      ∧ pyMax ((lastN bkPrices 21).dropLast) = 101
      ∧ pyMin ((lastN bkPrices 21).dropLast) = 99
      ∧ nthBack bkwCloses 1 = (2023/20 : ℚ))
    ∧ breakout_signal "WEAK" bkPrices bkVolumes bkHighs bkLows bkwCloses
        = none := by
  have hmx : pyMax ((lastN bkPrices 21).dropLast) = 101 := by
    with_unfolding_all decide
  have hmn : pyMin ((lastN bkPrices 21).dropLast) = 99 := by
    with_unfolding_all decide
  have hlc : nthBack bkwCloses 1 = (2023/20 : ℚ) :=
    Rat.ext (by with_unfolding_all decide) (by with_unfolding_all decide)
  refine ⟨⟨by with_unfolding_all decide, hmx, hmn, hlc⟩, ?_⟩
  refine breakout_signal_weak_poke_rejected "WEAK" bkPrices bkVolumes bkHighs
    bkLows bkwCloses (by with_unfolding_all decide) (Or.inl ⟨?_, ?_⟩)
  · rw [hmx, hlc]
    norm_num
  · rw [hmx, hmn, hlc]
    rw [show max ((101:ℚ) - 99) (1/10^9) = 2 from by
      rw [max_eq_left (by norm_num)]; norm_num]
    norm_num

/-- The exact confirmed signal the breakout detector produces on the `bk*`
input — the spec's "weak poke" scenario (close 101.3 over a [99, 101] range),
which the spec predicts is rejected. -/
def bkResult : BreakoutSignal :=
  { signal := "CONFIRMED", direction := "LONG", intent_score := (35/10),
    range_high := 101, range_low := 99, range_span := 2,
    break_distance := (3/10), atr := some (7/10), compression := false,
    follow_through := true, reason := "STRICT_CONFIRMED_LONG" }

set_option maxRecDepth 2000 in
/-- The breakout detector's output on the `bk*` lists, computed stepwise. -/
theorem breakout_signal_bk :
    breakout_signal "CEX" bkPrices bkVolumes bkHighs bkLows bkCloses
      = some bkResult := by
  have hlc : nthBack bkCloses 1 = (1013/10 : ℚ) :=
    Rat.ext (by with_unfolding_all decide) (by with_unfolding_all decide)
  have hpc : nthBack bkCloses 2 = (100 : ℚ) :=
    Rat.ext (by with_unfolding_all decide) (by with_unfolding_all decide)
  have hmx : pyMax ((lastN bkPrices 21).dropLast) = 101 := by
    with_unfolding_all decide
  have hmn : pyMin ((lastN bkPrices 21).dropLast) = 99 := by
    with_unfolding_all decide
  have hsumbk : (trueRanges ((lastN bkHighs (14 + 1)).drop 1)
      ((lastN bkLows (14 + 1)).drop 1) (lastN bkCloses (14 + 1))).sum
      = (49/5 : ℚ) :=
    Rat.ext (by with_unfolding_all decide) (by with_unfolding_all decide)
  have hatr : compute_atr bkHighs bkLows bkCloses 14 = some (7/10) := by
    unfold compute_atr
    rw [if_neg (by with_unfolding_all decide)]
    simp only []
    rw [hsumbk, show (49/5 : ℚ) / ((14 : ℕ) : ℚ) = 7/10 from by norm_num]
  have hvol : (analyze_volume bkVolumes none 20 4).score = 2 := by
    with_unfolding_all decide
  have hspike : volume_spike_confirmed bkVolumes (13/10) = true := by
    unfold volume_spike_confirmed
    simp only []
    rw [hvol]
    exact decide_eq_true (by norm_num)
  have hcompr : detect_compression bkPrices = false := by
    with_unfolding_all decide
  unfold breakout_signal
  rw [if_neg (by with_unfolding_all decide)]
  simp only [Nat.reduceAdd]
  rw [hlc, hmx, hmn]
  rw [show max ((101:ℚ) - 99) (1/10^9) = 2 from by
    rw [max_eq_left (by norm_num)]; norm_num]
  rw [if_pos (by norm_num)]
  unfold breakoutAfterDirection
  rw [if_neg (by norm_num)]
  rw [show (if ¬bkHighs.isEmpty ∧ ¬bkLows.isEmpty ∧ ¬bkCloses.isEmpty
      then compute_atr bkHighs bkLows bkCloses 14 else none) = some (7/10) from by
    rw [if_pos ⟨by with_unfolding_all decide, by with_unfolding_all decide,
      by with_unfolding_all decide⟩]
    exact hatr]
  split
  · rename_i heq
    exact absurd heq (by simp)
  rename_i a heq
  obtain rfl : a = (7/10 : ℚ) := (Option.some.inj heq).symm
  rw [if_neg (by norm_num)]
  rw [hlc, hpc]
  rw [show |(1013/10 : ℚ) - 100| = (13/10 : ℚ) from by
    rw [abs_of_nonneg (by norm_num)]; norm_num]
  rw [if_neg (by norm_num)]
  rw [if_neg (fun hng => hng ⟨by with_unfolding_all decide,
    by with_unfolding_all decide, hspike⟩)]
  rw [hcompr]
  rw [show decide ((4/10) * (2:ℚ) / ((20 : ℕ) : ℚ) < (13/10 : ℚ)) = true from
    decide_eq_true (by norm_num)]
  simp only []
  rw [if_neg (show ¬(false = true) from by simp), if_pos trivial]
  rw [show (3:ℚ) + 0 + (5/10) = (35/10 : ℚ) from by norm_num]
  rw [show pyRound 2 ((35/10) : ℚ) = (35/10 : ℚ) from
    Rat.ext (by with_unfolding_all decide) (by with_unfolding_all decide)]
  rw [show pyRound 6 ((2:ℚ)) = (2:ℚ) from
    Rat.ext (by with_unfolding_all decide) (by with_unfolding_all decide)]
  rw [show pyRound 6 ((1013/10 : ℚ) - 101) = (3/10 : ℚ) from
    Rat.ext (by with_unfolding_all decide) (by with_unfolding_all decide)]
  rw [show pyRound 6 ((7/10) : ℚ) = (7/10 : ℚ) from
    Rat.ext (by with_unfolding_all decide) (by with_unfolding_all decide)]
  rfl

set_option maxRecDepth 2000 in
/-- Counterexample to C6's scenario clause: with the last 20 closed bars
confined to [99, 101] (span exactly 2) and a new close of 101.3, the break
distance 0.3 is 15% of the span — above the 8% minimum — and with ATR and
volume confirmation `breakout_signal` returns a CONFIRMED LONG signal, not
`None`. -/
theorem breakout_weak_poke_scenario_counterexample :
    pyMax ((lastN bkPrices 21).dropLast) = 101
    ∧ pyMin ((lastN bkPrices 21).dropLast) = 99
    ∧ nthBack bkCloses 1 = (1013/10 : ℚ)
    ∧ breakout_signal "CEX" bkPrices bkVolumes bkHighs bkLows bkCloses
        = some bkResult
    ∧ bkResult.signal = "CONFIRMED" := by
  refine ⟨by with_unfolding_all decide, by with_unfolding_all decide,
    Rat.ext (by with_unfolding_all decide) (by with_unfolding_all decide),
    breakout_signal_bk, rfl⟩

/-! ### Rounding bounds -/

/-- `ratFloor` agrees with the integer floor. -/
theorem ratFloor_eq_floor (q : ℚ) : ratFloor q = ⌊q⌋ := by
  rw [Rat.floor_def, ratFloor, Int.fdiv_eq_ediv _ (by positivity)]

/-- Banker's rounding lies between the floor and the ceiling. -/
theorem roundHalfEven_bounds (x : ℚ) :
    ⌊x⌋ ≤ roundHalfEven x ∧ roundHalfEven x ≤ ⌈x⌉ := by
  unfold roundHalfEven
  rw [ratFloor_eq_floor]
  simp only []
  have hfc : ⌊x⌋ ≤ ⌈x⌉ := Int.floor_le_ceil x
  have hsucc : ∀ h : 0 < x - ⌊x⌋, ⌊x⌋ + 1 ≤ ⌈x⌉ := by
    intro h
    have h1 : (⌊x⌋ : ℚ) < x := by linarith
    have h2 : (⌊x⌋ : ℚ) < (⌈x⌉ : ℚ) := lt_of_lt_of_le h1 (Int.le_ceil x)
    exact_mod_cast Int.add_one_le_iff.mpr (by exact_mod_cast h2)
  split
  · exact ⟨le_refl _, hfc⟩
  · split
    · rename_i h1 h2
      exact ⟨by omega, hsucc (by linarith)⟩
    · split
      · exact ⟨le_refl _, hfc⟩
      · rename_i h1 h2 h3
        have hr : x - ⌊x⌋ = 1/2 := le_antisymm (not_lt.mp h2) (not_lt.mp h1)
        exact ⟨by omega, hsucc (by rw [hr]; norm_num)⟩

/-- Python `round(x, 2)` of a value in `[0, 10]` stays in `[0, 10]`. -/
theorem pyRound2_mem_Icc (x : ℚ) (h0 : 0 ≤ x) (h10 : x ≤ 10) :
    0 ≤ pyRound 2 x ∧ pyRound 2 x ≤ 10 := by
  obtain ⟨hl, hu⟩ := roundHalfEven_bounds (x * (10:ℚ)^2)
  have hfl : (0:ℤ) ≤ ⌊x * (10:ℚ)^2⌋ := Int.floor_nonneg.mpr (by positivity)
  have hcu : ⌈x * (10:ℚ)^2⌉ ≤ (1000:ℤ) := Int.ceil_le.mpr (by norm_num; linarith)
  have hge : (0:ℚ) ≤ (roundHalfEven (x * (10:ℚ)^2) : ℚ) := by
    exact_mod_cast le_trans hfl hl
  have hle : (roundHalfEven (x * (10:ℚ)^2) : ℚ) ≤ (1000:ℚ) := by
    exact_mod_cast le_trans hu hcu
  unfold pyRound
  constructor
  · exact div_nonneg hge (by norm_num)
  · rw [div_le_iff₀ (by norm_num)]
    calc (roundHalfEven (x * (10:ℚ)^2) : ℚ) ≤ 1000 := hle
    _ = 10 * (10:ℚ)^2 := by norm_num

/-! ### `strategy/decision_engine.py` -/

/-- `DecisionResult` dataclass: state tag, score, direction, named component
map (as an ordered association list) and reason string. -/
structure DecisionResult where
  state : String
  score : ℚ
  direction : Option String
  components : List (String × ℚ)
  reason : String
  deriving DecidableEq

/-- Early `IGNORE` result of a failed gate. -/
def gateIgnore (reason : String) : DecisionResult :=
  { state := "IGNORE", score := 0, direction := none, components := [],
    reason := reason }

/-- Final-decision tail of `final_trade_decision` (steps 🔟 and FINAL of the
source): late-session penalty, clamp of the score to `[0, 10]`, two-decimal
rounding, and classification into `EXECUTE_*`, `PREPARE_*` or `IGNORE`. -/
def classifyDecision (direction : String) (score0 : ℚ)
    (components0 : List (String × ℚ)) (now_hour : ℕ) : DecisionResult :=
  let score1 : ℚ := if 12 ≤ now_hour then score0 - 1 else score0
  let components : List (String × ℚ) :=
    components0 ++ (if 12 ≤ now_hour then [("late_session_penalty", -1)] else [])
  let score : ℚ := pyRound 2 (max (min score1 10) 0)
  if (15/2) ≤ score then
    { state := "EXECUTE_" ++ direction, score := score,
      direction := some direction, components := components,
      reason := "institutional continuation trade" }
  else if 6 ≤ score then
    { state := "PREPARE_" ++ direction, score := score,
      direction := some direction, components := components,
      reason := "developing strong setup" }
  else
    { state := "IGNORE", score := score, direction := none,
      components := components, reason := "edge insufficient" }

/-- Body of `final_trade_decision` once the structural gate has found a
pullback signal: gates 2–10 of the pipeline, handing the accumulated score to
`classifyDecision`. -/
def decisionAfterPullback (highs lows closes volumes : List ℚ)
    (market_regime htf_bias_direction : String) (vwap_ctx : VWAPContext)
    (ps : PullbackSignal) (now_hour : ℕ) : DecisionResult :=
    let direction := ps.direction
    if ps.signal ≠ "CONFIRMED" then gateIgnore "not confirmed pullback"
    else if direction = "LONG" ∧ htf_bias_direction ≠ "BULLISH" then
      gateIgnore "htf not bullish"
    else if direction = "SHORT" ∧ htf_bias_direction ≠ "BEARISH" then
      gateIgnore "htf not bearish"
    else if market_regime ≠ "TRENDING" then
      gateIgnore "only trade trending regime"
    else if direction = "LONG" ∧ (vwap_ctx.acceptance ≠ "ABOVE" ∨ vwap_ctx.score < 1) then
      gateIgnore "weak VWAP structure"
    else if direction = "SHORT" ∧ (vwap_ctx.acceptance ≠ "BELOW" ∨ (-1 : ℚ) < vwap_ctx.score) then
      gateIgnore "weak VWAP structure"
    else
      let vol_ctx := analyze_volume volumes (some closes)
      if vol_ctx.score < 1 then gateIgnore "insufficient volume"
      else
        let atr := compute_atr highs lows closes
        let move : ℚ := if 1 < closes.length then nthBack closes 1 - nthBack closes 2 else 0
        let volat_ctx := analyze_volatility move atr
        if volat_ctx.state ≠ "EXPANDING" then gateIgnore "volatility not expanding"
        else
          let liq_ctx := analyze_liquidity volumes
          if liq_ctx.level = "LOW" ∨ liq_ctx.level = "ILLIQUID" then
            gateIgnore "low liquidity"
          else
            let pa_ctx := price_action_context closes highs lows closes closes
            if |pa_ctx.score| < (15/100) then gateIgnore "weak price action"
            else
              let nearest := ps.nearest_level
              let sr_score := sr_location_score (nthBack closes 1) (some nearest) direction
              let score : ℚ := (7/2) + 2 + (3/2) + |vwap_ctx.score| + vol_ctx.score
                + volat_ctx.score + liq_ctx.score + pa_ctx.score + sr_score * (3/2)
              let components : List (String × ℚ) :=
                [("structure", (7/2)), ("htf", 2), ("regime", (3/2)),
                 ("vwap", |vwap_ctx.score|), ("volume", vol_ctx.score),
                 ("volatility", volat_ctx.score), ("liquidity", liq_ctx.score),
                 ("price_action", pa_ctx.score), ("sr", sr_score)]
              classifyDecision direction score components now_hour

/-- `final_trade_decision(...)`: the strict capital-protecting engine — a
sequential gate-then-score pipeline (structure, HTF alignment, regime, VWAP,
volume, volatility, liquidity, price action, SR-location boost, late-session
penalty), with the final score clamped to `[0, 10]`, rounded, and classified
into `EXECUTE_*` (≥ 7.5), `PREPARE_*` (≥ 6.0) or `IGNORE`.  The ambient wall
clock read by the Python code (`datetime.now()`) is passed in as `now_hour`. -/
def final_trade_decision (inst_key : String)
    (prices highs lows closes volumes : List ℚ)
    (market_regime htf_bias_direction : String) (vwap_ctx : VWAPContext)
    (pullback_signal : Option PullbackSignal) (now_hour : ℕ) : DecisionResult :=
  match pullback_signal with
  | none => gateIgnore "no pullback setup"
  | some ps =>
    decisionAfterPullback highs lows closes volumes market_regime
      htf_bias_direction vwap_ctx ps now_hour

/-- The decision-engine contract of C4: a legal state tag, a score in
`[0, 10]`, and a nonempty reason string. -/
def decisionOK (r : DecisionResult) : Prop :=
  (r.state = "IGNORE" ∨ r.state = "PREPARE_LONG" ∨ r.state = "PREPARE_SHORT"
    ∨ r.state = "EXECUTE_LONG" ∨ r.state = "EXECUTE_SHORT")
  ∧ 0 ≤ r.score ∧ r.score ≤ 10 ∧ r.reason ≠ ""

/-- Any gate-failure result satisfies the decision contract as long as the
attached reason string is nonempty. -/
theorem decisionOK_gateIgnore (s : String) (h : s ≠ "") :
    decisionOK (gateIgnore s) :=
  ⟨Or.inl rfl, le_refl 0, show (0:ℚ) ≤ 10 by norm_num, h⟩

/-- The classification tail always respects the decision contract when the
direction tag is LONG or SHORT: the score is clamped into `[0, 10]` before
rounding, and each branch fixes a legal state with a nonempty reason. -/
theorem classifyDecision_ok (direction : String) (score0 : ℚ)
    (components0 : List (String × ℚ)) (now_hour : ℕ)
    (hd : direction = "LONG" ∨ direction = "SHORT") :
    decisionOK (classifyDecision direction score0 components0 now_hour) := by
  unfold classifyDecision
  simp only []
  generalize (if 12 ≤ now_hour then score0 - 1 else score0) = s1
  have hscore := pyRound2_mem_Icc (max (min s1 10) 0)
    (le_max_right _ _) (max_le (min_le_right _ _) (by norm_num))
  by_cases h11 : ((15/2 : ℚ)) ≤ pyRound 2 (max (min s1 10) 0)
  · rw [if_pos h11]
    refine ⟨?_, ?_, ?_, ?_⟩
    · rcases hd with h | h
      · exact Or.inr (Or.inr (Or.inr (Or.inl (by rw [h]; exact rfl))))
      · exact Or.inr (Or.inr (Or.inr (Or.inr (by rw [h]; exact rfl))))
    · exact hscore.1
    · exact hscore.2
    · show ("institutional continuation trade" : String) ≠ ""
      decide
  rw [if_neg h11]
  by_cases h12 : ((6 : ℚ)) ≤ pyRound 2 (max (min s1 10) 0)
  · rw [if_pos h12]
    refine ⟨?_, ?_, ?_, ?_⟩
    · rcases hd with h | h
      · exact Or.inr (Or.inl (by rw [h]; exact rfl))
      · exact Or.inr (Or.inr (Or.inl (by rw [h]; exact rfl)))
    · exact hscore.1
    · exact hscore.2
    · show ("developing strong setup" : String) ≠ ""
      decide
  rw [if_neg h12]
  refine ⟨Or.inl rfl, hscore.1, hscore.2, ?_⟩
  show ("edge insufficient" : String) ≠ ""
  decide

/-- Gates 2–10 of the engine always produce a contract-respecting result,
provided the supplied pullback signal carries a LONG or SHORT direction. -/
theorem decisionAfterPullback_ok (highs lows closes volumes : List ℚ)
    (market_regime htf_bias_direction : String) (vwap_ctx : VWAPContext)
    (ps : PullbackSignal) (now_hour : ℕ)
    (hd : ps.direction = "LONG" ∨ ps.direction = "SHORT") :
    decisionOK (decisionAfterPullback highs lows closes volumes market_regime
      htf_bias_direction vwap_ctx ps now_hour) := by
  unfold decisionAfterPullback
  simp only []
  by_cases h1 : ps.signal ≠ "CONFIRMED"
  · rw [if_pos h1]; exact decisionOK_gateIgnore _ (by decide)
  rw [if_neg h1]
  by_cases h2 : ps.direction = "LONG" ∧ htf_bias_direction ≠ "BULLISH"
  · rw [if_pos h2]; exact decisionOK_gateIgnore _ (by decide)
  rw [if_neg h2]
  by_cases h3 : ps.direction = "SHORT" ∧ htf_bias_direction ≠ "BEARISH"
  · rw [if_pos h3]; exact decisionOK_gateIgnore _ (by decide)
  rw [if_neg h3]
  by_cases h4 : market_regime ≠ "TRENDING"
  · rw [if_pos h4]; exact decisionOK_gateIgnore _ (by decide)
  rw [if_neg h4]
  by_cases h5 : ps.direction = "LONG" ∧ (vwap_ctx.acceptance ≠ "ABOVE" ∨ vwap_ctx.score < 1)
  · rw [if_pos h5]; exact decisionOK_gateIgnore _ (by decide)
  rw [if_neg h5]
  by_cases h6 : ps.direction = "SHORT" ∧ (vwap_ctx.acceptance ≠ "BELOW" ∨ (-1 : ℚ) < vwap_ctx.score)
  · rw [if_pos h6]; exact decisionOK_gateIgnore _ (by decide)
  rw [if_neg h6]
  by_cases h7 : (analyze_volume volumes (some closes)).score < 1
  · rw [if_pos h7]; exact decisionOK_gateIgnore _ (by decide)
  rw [if_neg h7]
  by_cases h8 : (analyze_volatility
      (if 1 < closes.length then nthBack closes 1 - nthBack closes 2 else 0)
      (compute_atr highs lows closes)).state ≠ "EXPANDING"
  · rw [if_pos h8]; exact decisionOK_gateIgnore _ (by decide)
  rw [if_neg h8]
  by_cases h9 : (analyze_liquidity volumes).level = "LOW"
      ∨ (analyze_liquidity volumes).level = "ILLIQUID"
  · rw [if_pos h9]; exact decisionOK_gateIgnore _ (by decide)
  rw [if_neg h9]
  by_cases h10 : |(price_action_context closes highs lows closes closes).score| < (15/100 : ℚ)
  · rw [if_pos h10]; exact decisionOK_gateIgnore _ (by decide)
  rw [if_neg h10]
  exact classifyDecision_ok _ _ _ _ hd

/-- C4: Decision-engine totality and output range — with the pullback signal
either absent or produced by `detect_pullback_signal`, `final_trade_decision`
always returns a `DecisionResult` whose score lies in `[0, 10]`, whose state is
one of IGNORE, PREPARE_LONG, PREPARE_SHORT, EXECUTE_LONG, EXECUTE_SHORT, and
whose reason string is nonempty; in particular the structural gate failure (no
pullback setup) yields state IGNORE with a reason string. -/
theorem final_trade_decision_total (inst_key : String)
    (prices highs lows closes volumes : List ℚ)
    (pprices phighs plows pcloses pvolumes : List ℚ)
    (market_regime htf_bias_direction htf_direction : String)
    (vwap_ctx : VWAPContext) (max_proximity : ℚ) (min_bars : ℕ) (now_hour : ℕ) :
    decisionOK (final_trade_decision inst_key prices highs lows closes volumes
      market_regime htf_bias_direction vwap_ctx
      (detect_pullback_signal pprices phighs plows pcloses pvolumes htf_direction
        max_proximity min_bars) now_hour)
    ∧ final_trade_decision inst_key prices highs lows closes volumes
        market_regime htf_bias_direction vwap_ctx none now_hour
      = gateIgnore "no pullback setup" := by
  constructor
  · cases hps : detect_pullback_signal pprices phighs plows pcloses pvolumes
        htf_direction max_proximity min_bars with
    | none =>
      exact decisionOK_gateIgnore _ (by decide)
    | some p =>
      show decisionOK (decisionAfterPullback highs lows closes volumes market_regime
        htf_bias_direction vwap_ctx p now_hour)
      apply decisionAfterPullback_ok
      obtain ⟨nearest, td, htd, hpb⟩ :=
        detect_pullback_signal_factors _ _ _ _ _ _ _ _ _ hps
      have h1 := (pullbackAfterDirection_success _ _ _ _ _ _ _ _ hpb).1
      rw [h1]
      exact htd
  · rfl

/-! ### `core/market_streamer.py` -/

/-- `MAX_TRADES_PER_DAY = 5`. -/
def MAX_TRADES_PER_DAY : ℕ := 5

/-- `MAX_CONCURRENT_TRADES = 3`. -/
def MAX_CONCURRENT_TRADES : ℕ := 3

/-- `MIN_EXECUTION_SCORE = 7.5`. -/
def MIN_EXECUTION_SCORE : ℚ := 15/2

/-- The state-tag prefix checked by `decision.state.startswith("EXECUTE")`. -/
def execTag : String := "EXECUTE"

/-- One entry of the `feeds` dict of a websocket message, reduced to what
`on_message` reads from it: the instrument key, the last traded price if the
`ltpc` lookup and float conversion succeed, and the last OHLC bar
(high, low, close, volume) if present and parseable.  A failed parse is
`none` (the Python `except: continue`). -/
structure Feed where
  inst : String
  ltp : Option ℚ
  bar : Option (ℚ × ℚ × ℚ × ℚ)

/-- One `on_message` invocation's inputs: the wall clock (`datetime.now()`)
as hour/minute and the ISO date string, the ordered feed entries, the
strategy engine's `evaluate` (scanner/strategy_engine.py is not under `src/`,
so it enters as an oracle), and the set of instruments the execution engine's
`handle_exits` removes from the open-position set during this invocation
(C2's assumption: the exit handler only ever removes elements). -/
structure Batch where
  hour : ℕ
  minute : ℕ
  today : String
  feeds : List Feed
  evaluate : String → ℚ → Option DecisionResult
  exits : Finset String

/-- The module-level mutable state of `market_streamer`: the per-date signal
ledger `signals_today` (a total function; dates never touched are the empty
set, matching the `signals_today[today] = set()` initialisation) and the
`open_positions` set. -/
structure OrchState where
  signalsToday : String → Finset String
  openPositions : Finset String

/-- The candidate-collection loop of `on_message`: walks the feeds in order,
breaking out when `open_positions` has reached `MAX_CONCURRENT_TRADES`,
skipping entries whose ltp or bar fails to parse or whose evaluation returns
nothing, and collecting `(inst_key, decision, ltp)` for decisions whose state
starts with EXECUTE, whose instrument is not already in today's ledger, and
whose score is at least `MIN_EXECUTION_SCORE`. -/
def scanFeeds (ledger : Finset String) (openPos : Finset String)
    (evaluate : String → ℚ → Option DecisionResult) :
    List Feed → List (String × DecisionResult × ℚ)
  | [] => []
  | f :: rest =>
    if MAX_CONCURRENT_TRADES ≤ openPos.card then []
    else
      match f.ltp with
      | none => scanFeeds ledger openPos evaluate rest
      | some ltp =>
        match f.bar with
        | none => scanFeeds ledger openPos evaluate rest
        | some _ =>
          match evaluate f.inst ltp with
          | none => scanFeeds ledger openPos evaluate rest
          | some d =>
            if d.state.startsWith execTag then
              if f.inst ∈ ledger then scanFeeds ledger openPos evaluate rest
              else if d.score < MIN_EXECUTION_SCORE then
                scanFeeds ledger openPos evaluate rest
              else (f.inst, d, ltp) :: scanFeeds ledger openPos evaluate rest
            else scanFeeds ledger openPos evaluate rest

/-- The admission loop over the sorted candidates: breaks when either the
daily ledger for `today` has reached `MAX_TRADES_PER_DAY` or the open-position
set has reached `MAX_CONCURRENT_TRADES`; otherwise calls
`execution_engine.handle_entry` (recorded in the returned admission list) and
inserts the instrument into both the daily ledger and `open_positions`. -/
def admitLoop (today : String) :
    OrchState → List (String × DecisionResult × ℚ) → OrchState × List String
  | s, [] => (s, [])
  | s, (inst, _, _) :: rest =>
    if MAX_TRADES_PER_DAY ≤ (s.signalsToday today).card then (s, [])
    else if MAX_CONCURRENT_TRADES ≤ s.openPositions.card then (s, [])
    else
      let s' : OrchState :=
        { signalsToday := fun d =>
            if d = today then insert inst (s.signalsToday d) else s.signalsToday d,
          openPositions := insert inst s.openPositions }
      let r := admitLoop today s' rest
      (r.1, inst :: r.2)

/-- `on_message`: session filters (pre-open, the 12–13 lunch block, 15:00
onwards), the daily-limit early return, candidate scan, stable descending
sort by score, admission loop, and exit management (abstracted to removing
`m.exits` from the open-position set).  Returns the new module state and the
list of instruments passed to `handle_entry`, in call order. -/
def onMessage (s : OrchState) (m : Batch) : OrchState × List String :=
  if m.hour = 9 ∧ m.minute < 30 then (s, [])
  else if 12 ≤ m.hour ∧ m.hour ≤ 13 then (s, [])
  else if 15 ≤ m.hour then (s, [])
  else if MAX_TRADES_PER_DAY ≤ (s.signalsToday m.today).card then (s, [])
  else
    let cands := scanFeeds (s.signalsToday m.today) s.openPositions m.evaluate m.feeds
    let sorted := cands.mergeSort (fun a b => decide (b.2.1.score ≤ a.2.1.score))
    let r := admitLoop m.today s sorted
    ({ signalsToday := r.1.signalsToday,
       openPositions := r.1.openPositions \ m.exits }, r.2)

/-- The initial module state: empty ledger for every date, no open
positions. -/
def initOrch : OrchState := { signalsToday := fun _ => ∅, openPositions := ∅ }

/-- A sequence of `on_message` invocations from module start. -/
def runBatches (ms : List Batch) : OrchState :=
  ms.foldl (fun s m => (onMessage s m).1) initOrch

/-- C1: Daily admission cap — once the per-date ledger `signals_today[today]`
holds `MAX_TRADES_PER_DAY` (= 5) instruments, `on_message` returns before any
scanning or admission: the state is unchanged and no `handle_entry` call is
made, regardless of the candidates' scores. -/
theorem onMessage_daily_cap (s : OrchState) (m : Batch)
    (h : MAX_TRADES_PER_DAY ≤ (s.signalsToday m.today).card) :
    onMessage s m = (s, []) := by
  unfold onMessage
  by_cases h1 : m.hour = 9 ∧ m.minute < 30
  · rw [if_pos h1]
  · rw [if_neg h1]
    by_cases h2 : 12 ≤ m.hour ∧ m.hour ≤ 13
    · rw [if_pos h2]
    · rw [if_neg h2]
      by_cases h3 : 15 ≤ m.hour
      · rw [if_pos h3]
      · rw [if_neg h3, if_pos h]

/-- A state whose ledger already holds five instruments for every date. -/
def capState : OrchState :=
  { signalsToday := fun _ => {"I1", "I2", "I3", "I4", "I5"},
    openPositions := ∅ }

/-- A mid-session batch carrying a parseable feed whose evaluation is an
EXECUTE decision with a score far above the execution threshold. -/
def capBatch : Batch :=
  { hour := 10, minute := 0, today := "2025-01-06",
    feeds := [{ inst := "I6", ltp := some 100, bar := some (101, 99, 100, 1000) }],
    evaluate := fun _ _ => some
      { state := "EXECUTE_LONG", score := 9, direction := some "LONG",
        components := [], reason := "institutional continuation trade" },
    exits := ∅ }

theorem onMessage_daily_cap_witness :
    MAX_TRADES_PER_DAY ≤ (capState.signalsToday capBatch.today).card
    ∧ onMessage capState capBatch = (capState, []) :=
  ⟨by decide, onMessage_daily_cap capState capBatch (by decide)⟩

/-- The admission loop never grows the open-position set past
`MAX_CONCURRENT_TRADES`: each insertion happens only when the current size is
strictly below the cap. -/
theorem admitLoop_card_le (today : String)
    (l : List (String × DecisionResult × ℚ)) :
    ∀ s : OrchState, (admitLoop today s l).1.openPositions.card
      ≤ max s.openPositions.card MAX_CONCURRENT_TRADES := by
  induction l with
  | nil => intro s; exact le_max_left _ _
  | cons c rest ih =>
    intro s
    obtain ⟨inst, d, ltp⟩ := c
    unfold admitLoop
    by_cases h1 : MAX_TRADES_PER_DAY ≤ (s.signalsToday today).card
    · rw [if_pos h1]; exact le_max_left _ _
    rw [if_neg h1]
    by_cases h2 : MAX_CONCURRENT_TRADES ≤ s.openPositions.card
    · rw [if_pos h2]; exact le_max_left _ _
    rw [if_neg h2]
    simp only []
    have hins : (insert inst s.openPositions).card ≤ MAX_CONCURRENT_TRADES :=
      le_trans (Finset.card_insert_le _ _) (Nat.succ_le_of_lt (Nat.lt_of_not_le h2))
    exact le_trans (ih _) (max_le (le_max_of_le_right hins) (le_max_right _ _))

/-- One `on_message` invocation never grows the open-position set past the
concurrency cap (the exit removal at the end only shrinks it). -/
theorem onMessage_card (s : OrchState) (m : Batch) :
    (onMessage s m).1.openPositions.card
      ≤ max s.openPositions.card MAX_CONCURRENT_TRADES := by
  unfold onMessage
  by_cases h1 : m.hour = 9 ∧ m.minute < 30
  · rw [if_pos h1]; exact le_max_left _ _
  rw [if_neg h1]
  by_cases h2 : 12 ≤ m.hour ∧ m.hour ≤ 13
  · rw [if_pos h2]; exact le_max_left _ _
  rw [if_neg h2]
  by_cases h3 : 15 ≤ m.hour
  · rw [if_pos h3]; exact le_max_left _ _
  rw [if_neg h3]
  by_cases h4 : MAX_TRADES_PER_DAY ≤ (s.signalsToday m.today).card
  · rw [if_pos h4]; exact le_max_left _ _
  rw [if_neg h4]
  simp only []
  refine le_trans (Finset.card_le_card Finset.sdiff_subset) ?_
  exact admitLoop_card_le m.today _ s

/-- C2: Concurrent-position cap — with the exit handler abstracted as a pure
removal of a set of instruments, the open-position set of every state
reachable from module start by any sequence of `on_message` invocations has
at most `MAX_CONCURRENT_TRADES` (= 3) elements: the admission loop inserts
only when the size is strictly below the cap. -/
theorem open_positions_cap (ms : List Batch) :
    (runBatches ms).openPositions.card ≤ MAX_CONCURRENT_TRADES := by
  unfold runBatches
  have h : ∀ s : OrchState, s.openPositions.card ≤ MAX_CONCURRENT_TRADES →
      (ms.foldl (fun s m => (onMessage s m).1) s).openPositions.card
        ≤ MAX_CONCURRENT_TRADES := by
    induction ms with
    | nil => intro s hs; exact hs
    | cons m rest ih =>
      intro s hs
      rw [List.foldl_cons]
      exact ih _ (le_trans (onMessage_card s m) (max_le hs (le_refl _)))
  exact h initOrch (by decide)

/-- Every candidate the scan loop collects is absent from today's ledger
(the `inst_key in signals_today[today]: continue` guard). -/
theorem scanFeeds_not_mem (ledger openPos : Finset String)
    (evaluate : String → ℚ → Option DecisionResult) :
    ∀ (feeds : List Feed) (c : String × DecisionResult × ℚ),
      c ∈ scanFeeds ledger openPos evaluate feeds → c.1 ∉ ledger := by
  intro feeds
  induction feeds with
  | nil => intro c hc; exact absurd hc (List.not_mem_nil _)
  | cons f rest ih =>
    intro c hc
    unfold scanFeeds at hc
    split at hc
    · exact absurd hc (List.not_mem_nil _)
    · split at hc
      · exact ih c hc
      · split at hc
        · exact ih c hc
        · split at hc
          · exact ih c hc
          · split at hc
            · split at hc
              · exact ih c hc
              · split at hc
                · exact ih c hc
                · rename_i hnotmem hscore
                  rcases List.mem_cons.mp hc with h | h
                  · rw [h]; exact hnotmem
                  · exact ih c h
            · exact ih c hc

/-- Every instrument the admission loop hands to `handle_entry` comes from the
candidate list. -/
theorem admitLoop_admits (today : String) :
    ∀ (l : List (String × DecisionResult × ℚ)) (s : OrchState) (a : String),
      a ∈ (admitLoop today s l).2 → ∃ c ∈ l, c.1 = a := by
  intro l
  induction l with
  | nil => intro s a ha; exact absurd ha (List.not_mem_nil _)
  | cons c rest ih =>
    intro s a ha
    obtain ⟨inst, d, ltp⟩ := c
    unfold admitLoop at ha
    by_cases h1 : MAX_TRADES_PER_DAY ≤ (s.signalsToday today).card
    · rw [if_pos h1] at ha; exact absurd ha (List.not_mem_nil _)
    rw [if_neg h1] at ha
    by_cases h2 : MAX_CONCURRENT_TRADES ≤ s.openPositions.card
    · rw [if_pos h2] at ha; exact absurd ha (List.not_mem_nil _)
    rw [if_neg h2] at ha
    simp only [] at ha
    rcases List.mem_cons.mp ha with h | h
    · exact ⟨(inst, d, ltp), List.mem_cons_self _ _, h.symm⟩
    · obtain ⟨c', hc', he⟩ := ih _ a h
      exact ⟨c', List.mem_cons_of_mem _ hc', he⟩

/-- C3: Idempotence of admission — an instrument already recorded in today's
signal ledger is never admitted again by a later `on_message` invocation on
the same date: the scan loop's ledger-membership guard filters it out before
it can reach the admission loop, so no second `handle_entry` call occurs.
(The guard in `on_message` is this daily-ledger check; the per-bar timestamp
deduplication the spec describes lives in the strategy layer, not here.) -/
theorem onMessage_no_readmission (s : OrchState) (m : Batch) (inst : String)
    (h : inst ∈ s.signalsToday m.today) :
    inst ∉ (onMessage s m).2 := by
  unfold onMessage
  by_cases h1 : m.hour = 9 ∧ m.minute < 30
  · rw [if_pos h1]; exact List.not_mem_nil _
  rw [if_neg h1]
  by_cases h2 : 12 ≤ m.hour ∧ m.hour ≤ 13
  · rw [if_pos h2]; exact List.not_mem_nil _
  rw [if_neg h2]
  by_cases h3 : 15 ≤ m.hour
  · rw [if_pos h3]; exact List.not_mem_nil _
  rw [if_neg h3]
  by_cases h4 : MAX_TRADES_PER_DAY ≤ (s.signalsToday m.today).card
  · rw [if_pos h4]; exact List.not_mem_nil _
  rw [if_neg h4]
  simp only []
  intro hmem
  obtain ⟨c, hc, he⟩ := admitLoop_admits m.today _ s inst hmem
  rw [List.mem_mergeSort] at hc
  have hcm : c.1 ∈ s.signalsToday m.today := by rw [he]; exact h
  exact scanFeeds_not_mem _ _ _ _ c hc hcm

/-- A state whose ledger already records instrument I1 for every date, with
room left under both caps. -/
def dupState : OrchState :=
  { signalsToday := fun _ => {"I1"}, openPositions := ∅ }

/-- A mid-session batch re-delivering a parseable feed for I1 whose
evaluation is again an above-threshold EXECUTE decision. -/
def dupBatch : Batch :=
  { hour := 10, minute := 0, today := "2025-01-06",
    feeds := [{ inst := "I1", ltp := some 100, bar := some (101, 99, 100, 1000) }],
    evaluate := fun _ _ => some
      { state := "EXECUTE_LONG", score := 9, direction := some "LONG",
        components := [], reason := "institutional continuation trade" },
    exits := ∅ }

theorem onMessage_no_readmission_witness :
    "I1" ∈ dupState.signalsToday dupBatch.today
    ∧ "I1" ∉ (onMessage dupState dupBatch).2 :=
  ⟨by decide, onMessage_no_readmission dupState dupBatch "I1" (by decide)⟩
